import Mathlib

/-!
Shallow embedding of the pcjs x86 debugger core
(src/modules/pcjs/lib/debugger.js) and proofs about it.

JavaScript numbers used by the debugger are modelled as Lean Int values;
the 32-bit coercions performed by the JavaScript bitwise operators are made
explicit through the helpers below.  External collaborators (the CPU, the
Bus, the X86Seg segment objects, the shared strlib/usrlib helpers) are not
part of src/ and are either modelled from the spec (with a doc comment
saying so) or supplied as function-valued fields of the debugger state.
-/

set_option linter.dupNamespace false
set_option maxRecDepth 100000

namespace PCjs

/-! ## JavaScript 32-bit number semantics -/

/-- JavaScript ToUint32: the value of an integer reduced modulo 2^32. -/
def toUint32 (a : Int) : Nat := (a % (2 ^ 32 : Int)).toNat

/-- JavaScript ToInt32: the value reduced modulo 2^32, reinterpreted as a
signed 32-bit integer. -/
def toInt32 (a : Int) : Int :=
  let u := toUint32 a
  if u < 2 ^ 31 then (u : Int) else (u : Int) - 2 ^ 32

/-- JavaScript bitwise AND on numbers. -/
def jsAnd (a b : Int) : Int := toInt32 (Int.ofNat (toUint32 a &&& toUint32 b))

/-- JavaScript bitwise OR on numbers. -/
def jsOr (a b : Int) : Int := toInt32 (Int.ofNat (toUint32 a ||| toUint32 b))

/-- JavaScript bitwise XOR on numbers. -/
def jsXor (a b : Int) : Int := toInt32 (Int.ofNat (toUint32 a ^^^ toUint32 b))

/-- JavaScript bitwise NOT on numbers. -/
def jsNot (a : Int) : Int := toInt32 (-(toInt32 a) - 1)

/-- JavaScript left shift by a literal amount. -/
def jsShl (a : Int) (n : Nat) : Int := toInt32 (a * 2 ^ (n % 32))

/-- JavaScript arithmetic (sign-propagating) right shift by a literal amount. -/
def jsSar (a : Int) (n : Nat) : Int := Int.fdiv (toInt32 a) (2 ^ (n % 32))

/-- JavaScript truthiness of a number (0 is falsy; NaN does not arise here). -/
def jsTruthy (a : Int) : Bool := a ≠ 0

/-- JavaScript truthiness of a number-or-null value. -/
def jsTruthyOpt (a : Option Int) : Bool :=
  match a with
  | none => false
  | some v => v ≠ 0

/-! ## Sentinels and external x86 constants

The x86 constant definitions live in x86.js, which is not under src/. -/

/-- Modelled from the spec: X86.ADDR_INVALID (x86.js, not under src/), the
"reserved sentinel value" signalled by a failed linear-address resolution
(spec section 7, "Invalid address").  No valid linear address is negative. -/
def ADDR_INVALID : Int := -1

/-- Modelled from the spec: X86.OPCODE.OS (x86.js, not under src/), the x86
operand-size override prefix byte (spec section 4.3, step 2). -/
def OPCODE_OS : Int := 0x66

/-- Modelled from the spec: X86.OPCODE.AS (x86.js, not under src/), the x86
address-size override prefix byte (spec section 4.3, step 2). -/
def OPCODE_AS : Int := 0x67

/-- Modelled from the spec: X86.OPCODE.INT3 (x86.js, not under src/), the
one-byte INT3 instruction checked by checkBreakpoint. -/
def OPCODE_INT3 : Int := 0xCC

/-- Modelled from the spec: X86.OPCODE.MOVSB / CMPSW / STOSB / SCASW
(x86.js, not under src/), the byte ranges used by isStringIns. -/
def OPCODE_MOVSB : Int := 0xA4
def OPCODE_CMPSW : Int := 0xA7
def OPCODE_STOSB : Int := 0xAA
def OPCODE_SCASW : Int := 0xAF

/-- Modelled from the spec: X86.MODEL_80186 (x86.js, not under src/); pcjs
identifies CPU models by their numeric names, matching Debugger.CPUS. -/
def MODEL_80186 : Int := 80186

/-- Modelled from the spec: X86.MODEL_80286 (x86.js, not under src/). -/
def MODEL_80286 : Int := 80286

/-- Modelled from the spec: X86.MODEL_80386 (x86.js, not under src/). -/
def MODEL_80386 : Int := 80386

/-- Modelled from the spec: Messages.INT (shared defines, not under src/).
Message categories are distinct bit values; only distinctness is used. -/
def MESSAGES_INT : Nat := 2 ^ 4

/-- Modelled from the spec: Messages.HALT (shared defines, not under src/). -/
def MESSAGES_HALT : Nat := 2 ^ 30

/-! ## Segments (external X86Seg collaborator) -/

/-- A segment descriptor as consumed by the debugger: the base, the
one-past-the-last valid offset (offMax), the offset mask, and the default
data/address sizes of the segment.  Mirrors the X86Seg fields the debugger
reads (x86seg.js, not under src/; spec section 6, resolveSegment). -/
structure Seg where
  base : Int
  offMax : Int
  addrMask : Int
  dataSize : Nat
  addrSize : Nat
deriving Repr, DecidableEq

/-- Modelled from the spec: X86Seg.checkRead (x86seg.js, not under src/):
a bounds-checked read permission probe for nb bytes at off, returning the
linear address base + off, or the invalid sentinel on fault
(spec section 4.1, resolveLinear). -/
def Seg.checkRead (seg : Seg) (off : Int) (nb : Nat) : Int :=
  if 0 ≤ off ∧ off + (nb : Int) ≤ seg.offMax then seg.base + off else ADDR_INVALID

/-- Modelled from the spec: X86Seg.checkWrite (x86seg.js, not under src/),
the write-permission counterpart of checkRead (spec section 4.1). -/
def Seg.checkWrite (seg : Seg) (off : Int) (nb : Nat) : Int :=
  if 0 ≤ off ∧ off + (nb : Int) ≤ seg.offMax then seg.base + off else ADDR_INVALID

/-! ## The DbgAddr record -/

/-- The debugger address record created by newAddr().  A JavaScript null /
undefined field is modelled as none.  The addr field caches the resolved
linear address; note that the cache can hold the ADDR_INVALID sentinel,
which is distinct from the absent (none) state. -/
structure DbgAddr where
  off : Int
  sel : Option Int
  addr : Option Int
  fProt : Bool
  fTempBreak : Bool
  fData32 : Bool
  fAddr32 : Bool
  cOverrides : Option Nat := none
  fComplete : Option Bool := none
deriving Repr, DecidableEq

/-- A breakpoint collection: aBreak[0] is a human-readable tag string and
the remaining elements are the breakpoint entries, so the JavaScript
aBreak.length equals entries.length + 1. -/
structure BreakList where
  tag : String
  entries : List DbgAddr
deriving Repr, DecidableEq

/-- The JavaScript length of a breakpoint collection (tag slot included). -/
def BreakList.jsLength (b : BreakList) : Nat := b.entries.length + 1

/-- Which of the three breakpoint collections is being operated on; the
source passes the array itself and compares it against this.aBreakExec. -/
inductive BPK where
  | exec
  | read
  | write
deriving Repr, DecidableEq

/-! ## Debugger state

Fields above the line mirror the Debugger instance fields used by the
embedded functions; fields below it are the external collaborators
(CPU, Bus, symbol table front-end, shared library helpers). -/

structure DbgState where
  nSuppressBreaks : Nat
  bitsMessage : Nat
  maskAddr : Int
  aBreakExec : BreakList
  aBreakRead : BreakList
  aBreakWrite : BreakList
  iOpcodeHistory : Nat
  aOpcodeHistory : List DbgAddr
  aaOpcodeCounts : List (Nat × Nat)
  -- external collaborators and build flags:
  isDebugBuild : Bool                      -- the DEBUG compile-time flag
  cpuModel : Int                           -- this.cpu.model
  fProtMode : Bool                         -- getProtMode() (CPU CR0/PS state)
  csDataSize32 : Bool                      -- this.cpu.segCS.dataSize == 4
  csAddrSize32 : Bool                      -- this.cpu.segCS.addrSize == 4
  fChecksum : Bool                         -- this.cpu.aFlags.fChecksum
  nCyclesVal : Int                         -- this.cpu.getCycles()
  nChecksumVal : Int                       -- this.cpu.aCounts.nChecksum
  probeAddr : Int → Int                    -- this.cpu.probeAddr (unchecked read)
  liveSeg : Option Int → Option Seg        -- CPU live segment registers matching a selector
  segDebugger : Option (Int → Bool → Seg)  -- this.segDebugger loadReal/loadProt
  cpuRegValue : Int → String               -- getRegValue: hex string of a live CPU register
  findSymbolName : DbgAddr → Option String -- findSymbolAtAddr()[0] (symbol table lookup)

/-- Component.messageEnabled (shared/lib/component.js, not under src/).
Modelled from the spec and the source comment at checkBreakpoint ("whenever
both the INT and HALT message bits are set"): all requested bits must be
active. -/
def messageEnabled (st : DbgState) (bits : Nat) : Bool :=
  (st.bitsMessage &&& bits) = bits

/-- Fetch one of the three breakpoint collections. -/
def DbgState.getBreak (st : DbgState) (k : BPK) : BreakList :=
  match k with
  | BPK.exec => st.aBreakExec
  | BPK.read => st.aBreakRead
  | BPK.write => st.aBreakWrite

/-- Store back one of the three breakpoint collections. -/
def DbgState.setBreak (st : DbgState) (k : BPK) (b : BreakList) : DbgState :=
  match k with
  | BPK.exec => { st with aBreakExec := b }
  | BPK.read => { st with aBreakRead := b }
  | BPK.write => { st with aBreakWrite := b }

/-- Replace the entry list of one of the breakpoint collections. -/
def DbgState.setBreakEntries (st : DbgState) (k : BPK) (es : List DbgAddr) : DbgState :=
  st.setBreak k { st.getBreak k with entries := es }

/-! ## Address unit -/

/-- getSegment(sel, fProt): prefer the CPU's live segment registers; then,
unless suppressed, load the selector through the debugger's own segment
register.  The live-register comparisons and the loadReal/loadProt calls
are CPU collaborators, supplied by the state. -/
def getSegment (st : DbgState) (sel : Option Int) (fProt : Option Bool) : Option Seg :=
  let fProtMode := st.fProtMode
  let fProt := fProt.getD fProtMode
  if fProt = fProtMode then
    match st.liveSeg sel with
    | some seg => some seg
    | none =>
      if (decide (st.nSuppressBreaks ≠ 0) && fProt) || st.segDebugger.isNone then none
      else
        match st.segDebugger, sel with
        | some load, some s => some (load s fProt)
        | _, _ => none
  else
    match st.segDebugger, sel with
    | some load, some s => some (load s fProt)
    | _, _ => none

/-- getAddr(dbgAddr, fWrite, nb): return the cached linear address when
present (even when the cache holds the invalid sentinel); otherwise resolve
through the segment and cache the outcome.  When no segment can be
obtained the sentinel is returned without being cached. -/
def getAddr (st : DbgState) (d : DbgAddr) (fWrite : Bool) (nb : Option Nat) :
    Int × DbgAddr :=
  match d.addr with
  | some a => (a, d)
  | none =>
    match getSegment st d.sel (some d.fProt) with
    | none => (ADDR_INVALID, d)
    | some seg =>
      let nbv := match nb with
        | none => 1
        | some n => if n = 0 then 1 else n    -- nb || 1
      let a := if ¬fWrite then seg.checkRead d.off nbv else seg.checkWrite d.off nbv
      (a, { d with addr := some a })

/-- checkLimit(dbgAddr): mask the offset by the segment's address mask and,
past the segment limit, wrap the offset to 0 and invalidate the cached
linear address (the source notes this wrap ignores expand-down segments). -/
def checkLimit (st : DbgState) (d : DbgAddr) : DbgAddr :=
  match d.sel with
  | none => d
  | some _ =>
    match getSegment st d.sel (some d.fProt) with
    | none => d
    | some seg =>
      let d := { d with off := jsAnd d.off seg.addrMask }
      if ((toUint32 d.off : Int)) ≥ seg.offMax then
        { d with off := 0, addr := none }
      else d

/-- incAddr(dbgAddr, inc): advance the cached linear address (when present)
and the segmented offset (when present, re-clamped by checkLimit). -/
def incAddr (st : DbgState) (d : DbgAddr) (inc : Option Int) : DbgAddr :=
  let incv := match inc with
    | none => 1
    | some i => if i = 0 then 1 else i        -- inc = inc || 1
  let d := match d.addr with
    | some a => { d with addr := some (a + incv) }
    | none => d
  match d.sel with
  | some _ => checkLimit st { d with off := d.off + incv }
  | none => d

/-- getByte(dbgAddr, inc): unchecked probe read of one byte; 0xFF when the
address cannot be resolved, in which case no advance happens. -/
def getByte (st : DbgState) (d : DbgAddr) (inc : Option Int) : Int × DbgAddr :=
  let (addr, d) := getAddr st d false (some 1)
  if addr ≠ ADDR_INVALID then
    let b := jsOr (st.probeAddr addr) 0
    let d := if jsTruthyOpt inc then incAddr st d inc else d
    (b, d)
  else (0xff, d)

/-- getShort(dbgAddr, inc): two probe reads assembled little-endian; 0xFFFF
when the address cannot be resolved, in which case no advance happens. -/
def getShort (st : DbgState) (d : DbgAddr) (inc : Option Int) : Int × DbgAddr :=
  let (addr, d) := getAddr st d false (some 2)
  if addr ≠ ADDR_INVALID then
    let w := jsOr (st.probeAddr addr) (jsShl (st.probeAddr (addr + 1)) 8)
    let d := if jsTruthyOpt inc then incAddr st d inc else d
    (w, d)
  else (0xffff, d)

/-- getLong(dbgAddr, inc): four probe reads assembled little-endian into a
signed 32-bit value; -1 (all ones) when the address cannot be resolved, in
which case no advance happens. -/
def getLong (st : DbgState) (d : DbgAddr) (inc : Option Int) : Int × DbgAddr :=
  let (addr, d) := getAddr st d false (some 4)
  if addr ≠ ADDR_INVALID then
    let l := jsOr (jsOr (jsOr (st.probeAddr addr) (jsShl (st.probeAddr (addr + 1)) 8))
        (jsShl (st.probeAddr (addr + 2)) 16)) (jsShl (st.probeAddr (addr + 3)) 24)
    let d := if jsTruthyOpt inc then incAddr st d inc else d
    (l, d)
  else (-1, d)

/-- getWord(dbgAddr, fAdvance): operand-size dispatch between getShort and
getLong. -/
def getWord (st : DbgState) (d : DbgAddr) (fAdvance : Bool) : Int × DbgAddr :=
  if ¬d.fData32 then getShort st d (some (if fAdvance then 2 else 0))
  else getLong st d (some (if fAdvance then 4 else 0))

/-- newAddr(off, sel, addr, fProt, fData32, fAddr32) with the source's
defaulting: fProt defaults to the current protection mode, the 32-bit flags
default to the current code segment's sizes, and off defaults to 0. -/
def newAddr (st : DbgState) (off : Option Int) (sel : Option Int) (addr : Option Int)
    (fProt : Option Bool) (fData32 : Option Bool) (fAddr32 : Option Bool) : DbgAddr :=
  let fProt := fProt.getD st.fProtMode
  let fData32 := fData32.getD st.csDataSize32
  let fAddr32 := fAddr32.getD st.csAddrSize32
  { off := off.getD 0, sel := sel, addr := addr, fProt := fProt,
    fTempBreak := false, fData32 := fData32, fAddr32 := fAddr32 }

/-! ## Breakpoint aliasing -/

/-- mapBreakpoint(addr): fold addresses whose bits match the top 64Kb of the
addressable range into the top 64Kb of the first 1Mb (the 80286 reset-vector
aliasing quirk). -/
def mapBreakpoint (st : DbgState) (addr : Int) : Int :=
  if addr ≠ ADDR_INVALID then
    let mask := jsAnd st.maskAddr (jsNot 0xffff)
    if jsAnd addr mask = mask then jsAnd addr 0xfffff else addr
  else addr

/-! ## History and frequency tracking -/

def HISTORY_LIMIT : Nat := 100000

/-- checksEnabled(fRelease): in a DEBUG build (unless release criteria are
requested) always true; otherwise true when the exec collection holds at
least one breakpoint beyond its tag slot (aBreakExec.length > 1) or the
INT message category is active. -/
def checksEnabled (st : DbgState) (fRelease : Bool) : Bool :=
  if st.isDebugBuild && ¬fRelease then true
  else decide (st.aBreakExec.jsLength > 1) || messageEnabled st MESSAGES_INT

/-- historyInit(): deallocate the history and opcode-count buffers when
checks are disabled; allocate them (when not already allocated) otherwise.
The source calls checksEnabled() with no argument (fRelease undefined,
hence false). -/
def historyInit (st : DbgState) : DbgState :=
  if ¬checksEnabled st false then
    { st with iOpcodeHistory := 0, aOpcodeHistory := [], aaOpcodeCounts := [] }
  else
    let st :=
      if st.aOpcodeHistory.length = 0 then
        { st with
          aOpcodeHistory :=
            List.replicate HISTORY_LIMIT (newAddr st none none none none none none),
          iOpcodeHistory := 0 }
      else st
    if st.aaOpcodeCounts.length = 0 then
      { st with aaOpcodeCounts := (List.range 256).map (fun i => (i, 0)) }
    else st

/-! ## Breakpoint lookup, addition and matching -/

/-- The entry scan of findBreakpoint: for each stored entry, compare the
mapped linear address (getAddr caches into the entry as it resolves), with
a selector:offset fallback when the probe address is unresolvable.  Returns
(found, removed-entry-was-found-with-fRemove, updated entries). -/
def findBPScan (st : DbgState) (addr : Int) (dSel : Option Int) (dOff : Int)
    (fRemove : Bool) : List DbgAddr → Bool × Bool × List DbgAddr
  | [] => (false, false, [])
  | e :: rest =>
    let (ae, e) := getAddr st e false none
    if (addr ≠ ADDR_INVALID ∧ addr = mapBreakpoint st ae) ∨
        (addr = ADDR_INVALID ∧ dSel = e.sel ∧ dOff = e.off) then
      if fRemove then
        (true, true, rest)                              -- aBreak.splice(i, 1)
      else
        (true, false, e :: rest)
    else
      let (found, removed, rest) := findBPScan st addr dSel dOff fRemove rest
      (found, removed, e :: rest)

/-- findBreakpoint(aBreak, dbgAddr, fRemove).  The Bus unregistration and
the println messages are external side effects and are not modelled; the
historyInit call on removal is.  Returns (found, caller address with its
cache possibly filled, updated state). -/
def findBreakpoint (st : DbgState) (k : BPK) (d : DbgAddr) (fRemove : Bool) :
    Bool × DbgAddr × DbgState :=
  let (a0, d) := getAddr st d false none
  let addr := mapBreakpoint st a0
  let (found, removed, entries) :=
    findBPScan st addr d.sel d.off fRemove (st.getBreak k).entries
  let st := st.setBreakEntries k entries
  let st := if removed then historyInit st else st
  (found, d, st)

/-- addBreakpoint(aBreak, dbgAddr, fTemp).  The source pushes dbgAddr into
the collection and then keeps mutating the same (aliased) object in place;
with value semantics the in-place updates are applied first and the final
value is pushed, which yields the same final state.  The Bus addMemBreak
registration (whose getAddr call caches into the entry) and the println
are external; the getAddr cache effect is kept. -/
def addBreakpoint (st : DbgState) (k : BPK) (d : DbgAddr) (fTemp : Bool) :
    Bool × DbgState :=
  let st := { st with nSuppressBreaks := st.nSuppressBreaks + 1 }
  let (found, d, st) := findBreakpoint st k d false
  let (fSuccess, st) :=
    if ¬found then
      let d := { d with fTempBreak := fTemp }
      let d := if k ≠ BPK.exec then (getAddr st d false none).2 else d
      let d :=
        if fTemp then
          -- force temporary breakpoints to be linear: if (dbgAddr.addr) dbgAddr.sel = null
          if jsTruthyOpt d.addr then { d with sel := none } else d
        else d
      let st := st.setBreakEntries k ((st.getBreak k).entries ++ [d])
      let st := if ¬fTemp then historyInit st else st
      (true, st)
    else (false, st)
  (fSuccess, { st with nSuppressBreaks := st.nSuppressBreaks - 1 })

/-- The inner byte-range loop of checkBreakpoint, transcribed exactly: the
loop increments n both in its header and in its body (alongside addrBreak),
so iteration k compares addr + 2k against addrBreak + k.  Structural fuel
(nb is always enough, since n grows by 2 per iteration). -/
def cbInner (addr : Int) (nb : Nat) : Nat → Int → Nat → Bool
  | 0, _, _ => false
  | fuel + 1, addrBreak, n =>
    if n < nb then
      if addr + (n : Int) = addrBreak then true
      else cbInner addr nb fuel (addrBreak + 1) (n + 2)
    else false

/-- The entry loop of checkBreakpoint: zap the cached linear address of
selector-based entries, re-resolve, and run the (buggy) byte-range scan;
a matching temporary breakpoint is removed through findBreakpoint. -/
def cbScan (st : DbgState) (k : BPK) (addr : Int) (nb : Nat) :
    List DbgAddr → List DbgAddr → Bool × DbgState
  | [], acc => (false, st.setBreakEntries k acc.reverse)
  | e :: rest, acc =>
    let e := if e.sel ≠ none then { e with addr := none } else e
    let (ae, e) := getAddr st e false none
    let addrBreak := mapBreakpoint st ae
    if cbInner addr nb nb addrBreak 0 then
      if e.fTempBreak then
        let st := st.setBreakEntries k (acc.reverse ++ e :: rest)
        let (_, _, st) := findBreakpoint st k e true
        (true, st)
      else
        (true, st.setBreakEntries k (acc.reverse ++ e :: rest))
    else
      cbScan st k addr nb rest (e :: acc)

/-- checkBreakpoint(addr, nb, aBreak, fTemp): guarded by the re-entrancy
counter; maps the address through the aliasing fold, performs the INT3
message check, then scans the collection.  fTemp only gates a println
(not modelled). -/
def checkBreakpoint (st : DbgState) (addr0 : Int) (nb : Nat) (k : BPK)
    (fTemp : Bool) : Bool × DbgState :=
  let old := st.nSuppressBreaks
  let st := { st with nSuppressBreaks := old + 1 }
  let (fBreak, st) :=
    if old = 0 then
      let addr := mapBreakpoint st addr0
      let fBreak :=
        if messageEnabled st (MESSAGES_INT ||| MESSAGES_HALT) then
          decide (st.probeAddr addr = OPCODE_INT3)
        else false
      if fBreak then (true, st)
      else cbScan st k addr nb (st.getBreak k).entries []
    else (false, st)
  let _ := fTemp
  (fBreak, { st with nSuppressBreaks := st.nSuppressBreaks - 1 })

/-! ## Expression evaluator -/

/-- Debugger.aBinOpPrecedence. -/
def aBinOpPrecedence (c : Char) : Option Nat :=
  if c = '|' then some 0
  else if c = '^' then some 1
  else if c = '&' then some 2
  else if c = '-' then some 4
  else if c = '+' then some 4
  else if c = '%' then some 5
  else if c = '/' then some 5
  else if c = '*' then some 5
  else none

/-- The switch body of evalExpression: none models the return-false cases
(division or remainder by zero, unknown operator).  JavaScript division
followed by the |0 coercion truncates toward zero. -/
def evalBinOp (chOp : Char) (val1 val2 : Int) : Option Int :=
  if chOp = '+' then some (val1 + val2)
  else if chOp = '-' then some (val1 - val2)
  else if chOp = '*' then some (val1 * val2)
  else if chOp = '/' then if val2 = 0 then none else some (Int.tdiv val1 val2)
  else if chOp = '%' then if val2 = 0 then none else some (Int.tmod val1 val2)
  else if chOp = '&' then some (jsAnd val1 val2)
  else if chOp = '^' then some (jsXor val1 val2)
  else if chOp = '|' then some (jsOr val1 val2)
  else none

/-- evalExpression(aVals, aOps, cOps): pop operators (stack top = list head)
and reduce, at most cOps times (a negative cOps, the default -1, means all).
The boolean result reports success; the value and operator stacks are
returned in their final (possibly partially consumed) state, mirroring the
in-place array mutation of the source. -/
def evalExpression (aVals : List Int) (aOps : List Char) (cOps : Int) :
    Bool × List Int × List Char :=
  if cOps = 0 then (true, aVals, aOps)
  else
    match aOps with
    | [] => (true, aVals, aOps)
    | chOp :: aOps' =>
      match aVals with
      | val2 :: val1 :: aVals' =>
        match evalBinOp chOp val1 val2 with
        | none => (false, aVals', aOps')
        | some v => evalExpression (jsOr v 0 :: aVals') aOps' (cOps - 1)
      | _ => (false, aVals, aOps')

/-- Debugger.REGS (the none entries are the JavaScript null slots). -/
def REGS : List (Option String) :=
  [some "AL", some "CL", some "DL", some "BL", some "AH", some "CH", some "DH", some "BH",
   some "AX", some "CX", some "DX", some "BX", some "SP", some "BP", some "SI", some "DI",
   some "ES", some "CS", some "SS", some "DS", some "FS", some "GS", some "IP", some "PS",
   some "EAX", some "ECX", some "EDX", some "EBX", some "ESP", some "EBP", some "ESI", some "EDI",
   some "CR0", some "CR1", some "CR2", some "CR3", none, none, none, none,
   some "DR0", some "DR1", some "DR2", some "DR3", none, none, some "DR6", some "DR7",
   none, none, none, none, none, none, some "TR6", some "TR7",
   some "EIP"]

/-- Modelled from the spec: usr.indexOf (shared/lib/usrlib.js, not under
src/): the index of the first exact match in the array, or -1. -/
def usrIndexOf (l : List (Option String)) (s : String) : Int :=
  match l.indexOf? (some s) with
  | some i => (i : Int)
  | none => -1

/-- JavaScript String.toUpperCase on an ASCII character. -/
def jsToUpperChar (c : Char) : Char :=
  if 'a' ≤ c ∧ c ≤ 'z' then Char.ofNat (c.toNat - 32) else c

/-- JavaScript sReg.substr(off, len).toUpperCase(). -/
def jsSubstrUpper (s : String) (off len : Nat) : String :=
  String.mk (((s.data.drop off).take len).map jsToUpperChar)

/-- getRegIndex(sReg, off): try a 3-character then a 2-character upper-cased
register name. -/
def getRegIndex (sReg : String) (off : Nat) : Int :=
  let i := usrIndexOf REGS (jsSubstrUpper sReg off 3)
  if i < 0 then usrIndexOf REGS (jsSubstrUpper sReg off 2) else i

/-- Value of a hexadecimal digit character. -/
def hexDigitVal (c : Char) : Option Nat :=
  if '0' ≤ c ∧ c ≤ '9' then some (c.toNat - '0'.toNat)
  else if 'a' ≤ c ∧ c ≤ 'f' then some (c.toNat - 'a'.toNat + 10)
  else if 'A' ≤ c ∧ c ≤ 'F' then some (c.toNat - 'A'.toNat + 10)
  else none

/-- Modelled from the spec: str.parseInt (shared/lib/strlib.js, not under
src/).  Spec 4.7 has the evaluator consume "hex/decimal literals" with
hexadecimal as the debugger default base; none for an empty string or one
containing a non-hex-digit character. -/
def strParseInt (s : String) : Option Int :=
  let digits := s.data.foldl
    (fun acc c =>
      match acc, hexDigitVal c with
      | some a, some d => some (a * 16 + d)
      | _, _ => none)
    (some 0)
  if s.length = 0 then none
  else
    match digits with
    | some n => some (toInt32 (n : Int))
    | none => none

/-- parseValue(sValue, sName): resolve a register name through the CPU
collaborator, then parse the (possibly substituted) literal. -/
def parseValue (st : DbgState) (sValue : String) : Option Int :=
  let iReg := getRegIndex sValue 0
  let sValue := if iReg ≥ 0 then st.cpuRegValue iReg else sValue
  strParseInt sValue

/-- The character class of the binop-splitting RegExp of parseExpression. -/
def isBinOpChar (c : Char) : Bool :=
  c = '|' ∨ c = '^' ∨ c = '&' ∨ c = '+' ∨ c = '%' ∨ c = '/' ∨ c = '*' ∨ c = '-'

/-- JavaScript whitespace for trimming. -/
def isSpaceChar (c : Char) : Bool :=
  c = ' ' ∨ c = '\t' ∨ c = '\n' ∨ c = '\r'

/-- Modelled from the spec: str.trim (shared/lib/strlib.js, not under
src/): strip leading and trailing whitespace. -/
def strTrim (s : String) : String :=
  String.mk (((s.data.dropWhile isSpaceChar).reverse.dropWhile isSpaceChar).reverse)

/-- JavaScript String.split against a single-character class: every
matching character separates, and adjacent separators produce empty
pieces. -/
def jsSplitAux (p : Char → Bool) : List Char → List Char → List String
  | [], acc => [String.mk acc.reverse]
  | c :: rest, acc =>
    if p c then String.mk acc.reverse :: jsSplitAux p rest []
    else jsSplitAux p rest (c :: acc)

/-- JavaScript sExp.split(RegExp char class). -/
def jsSplit (p : Char → Bool) (s : String) : List String :=
  jsSplitAux p s.data []

/-- The main loop of parseExpression over the split-out value tokens; sExp
is the remaining unconsumed expression (as characters), used to recover the
operator following each value token.  Returns (fError, aVals, aOps) at loop
exit.  A reduce-one evalExpression call is made when the incoming operator
has strictly lower precedence than the stack top; as in the source, the
success flag of that call is discarded. -/
def parseExpLoop (st : DbgState) : List String → List Char → List Int → List Char →
    Bool × List Int × List Char
  | [], _, aVals, aOps => (false, aVals, aOps)
  | sValue :: restValues, sExp, aVals, aOps =>
    let s := strTrim sValue
    if s.length = 0 then (true, aVals, aOps)
    else
      match parseValue st s with
      | none => (true, aVals, aOps)
      | some v =>
        let aVals := v :: aVals
        let rest := sExp.drop sValue.length
        match rest with
        | [] => (false, aVals, aOps)
        | chOp :: rest' =>
          let (aVals, aOps) :=
            match aOps with
            | top :: _ =>
              if (aBinOpPrecedence chOp).getD 0 < (aBinOpPrecedence top).getD 0 then
                let (_, aVals, aOps) := evalExpression aVals aOps 1
                (aVals, aOps)
              else (aVals, aOps)
            | [] => (aVals, aOps)
          parseExpLoop st restValues rest' aVals (chOp :: aOps)

/-- parseExpression(sExp, fPrint): split on binary operators, run the
two-stack loop, then fully reduce; any error (bad token, failed final
reduction, unbalanced stacks) yields no value.  fPrint only controls
println output and is ignored here. -/
def parseExpression (st : DbgState) (sExp : String) (fPrint : Bool) : Option Int :=
  let _ := fPrint
  let asValues := jsSplit isBinOpChar sExp
  let (fError, aVals, aOps) := parseExpLoop st asValues sExp.toList [] []
  let (ok, aVals, _) := evalExpression aVals aOps (-1)
  let fError := fError || ¬ok || decide (aVals.length ≠ 1)
  if ¬fError then aVals.head? else none

/-! ## Opcode tables (Debugger.INS, INS_NAMES, TYPE constants and the
descriptor tables, transcribed from the source; TYPE_PFX is the source's
operand-prefix size class, renamed here). -/

/-- An opcode descriptor sub-array: element 0 is the instruction ordinal,
elements 1..3 the packed operand type descriptors. -/
abbrev OpDesc := List Nat

def CPU_8086 : Nat := 0
def CPU_80186 : Nat := 1
def CPU_80286 : Nat := 2
def CPU_80386 : Nat := 3

/-- Debugger.CPUS. -/
def CPUS : List Int := [8086, 80186, 80286, 80386]

def REG_AL : Nat := 0x00
def REG_CL : Nat := 0x01
def REG_DL : Nat := 0x02
def REG_BL : Nat := 0x03
def REG_AH : Nat := 0x04
def REG_CH : Nat := 0x05
def REG_DH : Nat := 0x06
def REG_BH : Nat := 0x07
def REG_AX : Nat := 0x08
def REG_CX : Nat := 0x09
def REG_DX : Nat := 0x0A
def REG_BX : Nat := 0x0B
def REG_SP : Nat := 0x0C
def REG_BP : Nat := 0x0D
def REG_SI : Nat := 0x0E
def REG_DI : Nat := 0x0F
def REG_SEG : Nat := 0x10
def REG_IP : Nat := 0x16
def REG_PS : Nat := 0x17
def REG_EAX : Nat := 0x18
def REG_CR0 : Nat := 0x20
def REG_DR0 : Nat := 0x28
def REG_TR0 : Nat := 0x30
def REG_EIP : Nat := 0x38

/-- The segment-register field encodings (Debugger.REG_ES .. REG_GS). -/
def REG_ES : Nat := 0x00
def REG_CS : Nat := 0x01
def REG_SS : Nat := 0x02
def REG_DS : Nat := 0x03
def REG_FS : Nat := 0x04
def REG_GS : Nat := 0x05

/-- Debugger.RMS: the 16-bit then 32-bit ModRM memory operand bases. -/
def RMS : List String :=
  ["BX+SI", "BX+DI", "BP+SI", "BP+DI", "SI", "DI", "BP", "BX",
   "EAX", "ECX", "EDX", "EBX", "ESP", "EBP", "ESI", "EDI"]

def TYPE_SIZE : Nat := 0x000F
def TYPE_MODE : Nat := 0x00F0
def TYPE_IREG : Nat := 0x0F00
def TYPE_OTHER : Nat := 0xF000

def TYPE_NONE : Nat := 0x0000
def TYPE_BYTE : Nat := 0x0001
def TYPE_SBYTE : Nat := 0x0002
def TYPE_WORD : Nat := 0x0003
def TYPE_VWORD : Nat := 0x0004
def TYPE_DWORD : Nat := 0x0005
def TYPE_SEGP : Nat := 0x0006
def TYPE_FARP : Nat := 0x0007
def TYPE_2WORD : Nat := 0x0008
def TYPE_DESC : Nat := 0x0009
def TYPE_WORDIB : Nat := 0x000A
def TYPE_WORDIW : Nat := 0x000B
/-- The source's TYPE_PREFIX size class. -/
def TYPE_PFX : Nat := 0x000F

def TYPE_IMM : Nat := 0x0000
def TYPE_ONE : Nat := 0x0010
def TYPE_IMMOFF : Nat := 0x0020
def TYPE_IMMREL : Nat := 0x0030
def TYPE_DSSI : Nat := 0x0040
def TYPE_ESDI : Nat := 0x0050
def TYPE_IMPREG : Nat := 0x0060
def TYPE_IMPSEG : Nat := 0x0070
def TYPE_MODRM : Nat := 0x0080
def TYPE_MODMEM : Nat := 0x0090
def TYPE_MODREG : Nat := 0x00A0
def TYPE_REG : Nat := 0x00B0
def TYPE_SEGREG : Nat := 0x00C0
def TYPE_CTLREG : Nat := 0x00D0
def TYPE_DBGREG : Nat := 0x00E0
def TYPE_TSTREG : Nat := 0x00F0

def TYPE_AL : Nat := REG_AL <<< 8 ||| TYPE_IMPREG ||| TYPE_BYTE
def TYPE_CL : Nat := REG_CL <<< 8 ||| TYPE_IMPREG ||| TYPE_BYTE
def TYPE_DL : Nat := REG_DL <<< 8 ||| TYPE_IMPREG ||| TYPE_BYTE
def TYPE_BL : Nat := REG_BL <<< 8 ||| TYPE_IMPREG ||| TYPE_BYTE
def TYPE_AH : Nat := REG_AH <<< 8 ||| TYPE_IMPREG ||| TYPE_BYTE
def TYPE_CH : Nat := REG_CH <<< 8 ||| TYPE_IMPREG ||| TYPE_BYTE
def TYPE_DH : Nat := REG_DH <<< 8 ||| TYPE_IMPREG ||| TYPE_BYTE
def TYPE_BH : Nat := REG_BH <<< 8 ||| TYPE_IMPREG ||| TYPE_BYTE
def TYPE_AX : Nat := REG_AX <<< 8 ||| TYPE_IMPREG ||| TYPE_VWORD
def TYPE_CX : Nat := REG_CX <<< 8 ||| TYPE_IMPREG ||| TYPE_VWORD
def TYPE_DX : Nat := REG_DX <<< 8 ||| TYPE_IMPREG ||| TYPE_VWORD
def TYPE_BX : Nat := REG_BX <<< 8 ||| TYPE_IMPREG ||| TYPE_VWORD
def TYPE_SP : Nat := REG_SP <<< 8 ||| TYPE_IMPREG ||| TYPE_VWORD
def TYPE_BP : Nat := REG_BP <<< 8 ||| TYPE_IMPREG ||| TYPE_VWORD
def TYPE_SI : Nat := REG_SI <<< 8 ||| TYPE_IMPREG ||| TYPE_VWORD
def TYPE_DI : Nat := REG_DI <<< 8 ||| TYPE_IMPREG ||| TYPE_VWORD
def TYPE_ES : Nat := REG_ES <<< 8 ||| TYPE_IMPSEG ||| TYPE_WORD
def TYPE_CS : Nat := REG_CS <<< 8 ||| TYPE_IMPSEG ||| TYPE_WORD
def TYPE_SS : Nat := REG_SS <<< 8 ||| TYPE_IMPSEG ||| TYPE_WORD
def TYPE_DS : Nat := REG_DS <<< 8 ||| TYPE_IMPSEG ||| TYPE_WORD
def TYPE_FS : Nat := REG_FS <<< 8 ||| TYPE_IMPSEG ||| TYPE_WORD
def TYPE_GS : Nat := REG_GS <<< 8 ||| TYPE_IMPSEG ||| TYPE_WORD

def TYPE_IN : Nat := 0x1000
def TYPE_OUT : Nat := 0x2000
def TYPE_BOTH : Nat := TYPE_IN ||| TYPE_OUT
def TYPE_CPU_SHIFT : Nat := 14
def TYPE_8086 : Nat := CPU_8086 <<< TYPE_CPU_SHIFT
def TYPE_80186 : Nat := CPU_80186 <<< TYPE_CPU_SHIFT
def TYPE_80286 : Nat := CPU_80286 <<< TYPE_CPU_SHIFT
def TYPE_80386 : Nat := CPU_80386 <<< TYPE_CPU_SHIFT

namespace INS
def NONE : Nat := 0
def AAA : Nat := 1
def AAD : Nat := 2
def AAM : Nat := 3
def AAS : Nat := 4
def ADC : Nat := 5
def ADD : Nat := 6
def AND : Nat := 7
def ARPL : Nat := 8
def AS : Nat := 9
def BOUND : Nat := 10
def BSF : Nat := 11
def BSR : Nat := 12
def BT : Nat := 13
def BTC : Nat := 14
def BTR : Nat := 15
def BTS : Nat := 16
def CALL : Nat := 17
def CBW : Nat := 18
def CLC : Nat := 19
def CLD : Nat := 20
def CLI : Nat := 21
def CLTS : Nat := 22
def CMC : Nat := 23
def CMP : Nat := 24
def CMPSB : Nat := 25
def CMPSW : Nat := 26
def CS : Nat := 27
def CWD : Nat := 28
def DAA : Nat := 29
def DAS : Nat := 30
def DEC : Nat := 31
def DIV : Nat := 32
def DS : Nat := 33
def ENTER : Nat := 34
def ES : Nat := 35
def ESC : Nat := 36
def FADD : Nat := 37
def FBLD : Nat := 38
def FBSTP : Nat := 39
def FCOM : Nat := 40
def FCOMP : Nat := 41
def FDIV : Nat := 42
def FDIVR : Nat := 43
def FIADD : Nat := 44
def FICOM : Nat := 45
def FICOMP : Nat := 46
def FIDIV : Nat := 47
def FIDIVR : Nat := 48
def FILD : Nat := 49
def FIMUL : Nat := 50
def FIST : Nat := 51
def FISTP : Nat := 52
def FISUB : Nat := 53
def FISUBR : Nat := 54
def FLD : Nat := 55
def FLDCW : Nat := 56
def FLDENV : Nat := 57
def FMUL : Nat := 58
def FNSAVE : Nat := 59
def FNSTCW : Nat := 60
def FNSTENV : Nat := 61
def FNSTSW : Nat := 62
def FRSTOR : Nat := 63
def FS : Nat := 64
def FST : Nat := 65
def FSTP : Nat := 66
def FSUB : Nat := 67
def FSUBR : Nat := 68
def GS : Nat := 69
def HLT : Nat := 70
def IDIV : Nat := 71
def IMUL : Nat := 72
def IN : Nat := 73
def INC : Nat := 74
def INS : Nat := 75
def INT : Nat := 76
def INT3 : Nat := 77
def INTO : Nat := 78
def IRET : Nat := 79
def JBE : Nat := 80
def JC : Nat := 81
def JCXZ : Nat := 82
def JG : Nat := 83
def JGE : Nat := 84
def JL : Nat := 85
def JLE : Nat := 86
def JMP : Nat := 87
def JA : Nat := 88
def JNC : Nat := 89
def JNO : Nat := 90
def JNP : Nat := 91
def JNS : Nat := 92
def JNZ : Nat := 93
def JO : Nat := 94
def JP : Nat := 95
def JS : Nat := 96
def JZ : Nat := 97
def LAHF : Nat := 98
def LAR : Nat := 99
def LDS : Nat := 100
def LEA : Nat := 101
def LEAVE : Nat := 102
def LES : Nat := 103
def LFS : Nat := 104
def LGDT : Nat := 105
def LGS : Nat := 106
def LIDT : Nat := 107
def LLDT : Nat := 108
def LMSW : Nat := 109
def LOADALL : Nat := 110
def LOCK : Nat := 111
def LODSB : Nat := 112
def LODSW : Nat := 113
def LOOP : Nat := 114
def LOOPNZ : Nat := 115
def LOOPZ : Nat := 116
def LSL : Nat := 117
def LSS : Nat := 118
def LTR : Nat := 119
def MOV : Nat := 120
def MOVSB : Nat := 121
def MOVSW : Nat := 122
def MOVSX : Nat := 123
def MOVZX : Nat := 124
def MUL : Nat := 125
def NEG : Nat := 126
def NOP : Nat := 127
def NOT : Nat := 128
def OR : Nat := 129
def OS : Nat := 130
def OUT : Nat := 131
def OUTS : Nat := 132
def POP : Nat := 133
def POPA : Nat := 134
def POPF : Nat := 135
def PUSH : Nat := 136
def PUSHA : Nat := 137
def PUSHF : Nat := 138
def RCL : Nat := 139
def RCR : Nat := 140
def REPNZ : Nat := 141
def REPZ : Nat := 142
def RET : Nat := 143
def RETF : Nat := 144
def ROL : Nat := 145
def ROR : Nat := 146
def SAHF : Nat := 147
def SALC : Nat := 148
def SAR : Nat := 149
def SBB : Nat := 150
def SCASB : Nat := 151
def SCASW : Nat := 152
def SETBE : Nat := 153
def SETC : Nat := 154
def SETG : Nat := 155
def SETGE : Nat := 156
def SETL : Nat := 157
def SETLE : Nat := 158
def SETNBE : Nat := 159
def SETNC : Nat := 160
def SETNO : Nat := 161
def SETNP : Nat := 162
def SETNS : Nat := 163
def SETNZ : Nat := 164
def SETO : Nat := 165
def SETP : Nat := 166
def SETS : Nat := 167
def SETZ : Nat := 168
def SGDT : Nat := 169
def SHL : Nat := 170
def SHLD : Nat := 171
def SHR : Nat := 172
def SHRD : Nat := 173
def SIDT : Nat := 174
def SLDT : Nat := 175
def SMSW : Nat := 176
def SS : Nat := 177
def STC : Nat := 178
def STD : Nat := 179
def STI : Nat := 180
def STOSB : Nat := 181
def STOSW : Nat := 182
def STR : Nat := 183
def SUB : Nat := 184
def TEST : Nat := 185
def VERR : Nat := 186
def VERW : Nat := 187
def WAIT : Nat := 188
def XCHG : Nat := 189
def XLAT : Nat := 190
def XOR : Nat := 191
def GRP1B : Nat := 192
def GRP1W : Nat := 193
def GRP1SW : Nat := 194
def GRP2B : Nat := 195
def GRP2W : Nat := 196
def GRP2B1 : Nat := 197
def GRP2W1 : Nat := 198
def GRP2BC : Nat := 199
def GRP2WC : Nat := 200
def GRP3B : Nat := 201
def GRP3W : Nat := 202
def GRP4B : Nat := 203
def GRP4W : Nat := 204
def OP0F : Nat := 205
def GRP6 : Nat := 206
def GRP7 : Nat := 207
def GRP8 : Nat := 208
end INS

/-- Debugger.INS_NAMES: mnemonics indexed by instruction ordinal. -/
def INS_NAMES : List String :=
  ["INVALID", "AAA", "AAD", "AAM", "AAS", "ADC", "ADD", "AND",
   "ARPL", "AS:", "BOUND", "BSF", "BSR", "BT", "BTC", "BTR",
   "BTS", "CALL", "CBW", "CLC", "CLD", "CLI", "CLTS", "CMC",
   "CMP", "CMPSB", "CMPSW", "CS:", "CWD", "DAA", "DAS", "DEC",
   "DIV", "DS:", "ENTER", "ES:", "ESC", "FADD", "FBLD", "FBSTP",
   "FCOM", "FCOMP", "FDIV", "FDIVR", "FIADD", "FICOM", "FICOMP", "FIDIV",
   "FIDIVR", "FILD", "FIMUL", "FIST", "FISTP", "FISUB", "FISUBR", "FLD",
   "FLDCW", "FLDENV", "FMUL", "FNSAVE", "FNSTCW", "FNSTENV", "FNSTSW", "FRSTOR",
   "FS:", "FST", "FSTP", "FSUB", "FSUBR", "GS:", "HLT", "IDIV",
   "IMUL", "IN", "INC", "INS", "INT", "INT3", "INTO", "IRET",
   "JBE", "JC", "JCXZ", "JG", "JGE", "JL", "JLE", "JMP",
   "JA", "JNC", "JNO", "JNP", "JNS", "JNZ", "JO", "JP",
   "JS", "JZ", "LAHF", "LAR", "LDS", "LEA", "LEAVE", "LES",
   "LFS", "LGDT", "LGS", "LIDT", "LLDT", "LMSW", "LOADALL", "LOCK",
   "LODSB", "LODSW", "LOOP", "LOOPNZ", "LOOPZ", "LSL", "LSS", "LTR",
   "MOV", "MOVSB", "MOVSW", "MOVSX", "MOVZX", "MUL", "NEG", "NOP",
   "NOT", "OR", "OS:", "OUT", "OUTS", "POP", "POPA", "POPF",
   "PUSH", "PUSHA", "PUSHF", "RCL", "RCR", "REPNZ", "REPZ", "RET",
   "RETF", "ROL", "ROR", "SAHF", "SALC", "SAR", "SBB", "SCASB",
   "SCASW", "SETBE", "SETC", "SETG", "SETGE", "SETL", "SETLE", "SETNBE",
   "SETNC", "SETNO", "SETNP", "SETNS", "SETNZ", "SETO", "SETP", "SETS",
   "SETZ", "SGDT", "SHL", "SHLD", "SHR", "SHRD", "SIDT", "SLDT",
   "SMSW", "SS:", "STC", "STD", "STI", "STOSB", "STOSW", "STR",
   "SUB", "TEST", "VERR", "VERW", "WAIT", "XCHG", "XLAT", "XOR"]


/-- Debugger.aOpDescPopCS: the 8086 meaning of opcode 0x0F. -/
def aOpDescPopCS : OpDesc := [INS.POP, TYPE_CS ||| TYPE_OUT]

/-- Debugger.aOpDescUndefined. -/
def aOpDescUndefined : OpDesc := [INS.NONE, TYPE_NONE]

/-- Debugger.aOpDesc0F: the two-byte-escape meaning of opcode 0x0F. -/
def aOpDesc0F : OpDesc := [INS.OP0F, TYPE_WORD ||| TYPE_BOTH]

/-- Debugger.aaOpDescs: the 256-entry primary opcode table. -/
def aaOpDescs : List OpDesc :=
  [
   [INS.ADD, TYPE_MODRM ||| TYPE_BYTE ||| TYPE_BOTH, TYPE_REG ||| TYPE_BYTE ||| TYPE_IN],   -- 0x00
   [INS.ADD, TYPE_MODRM ||| TYPE_VWORD ||| TYPE_BOTH, TYPE_REG ||| TYPE_VWORD ||| TYPE_IN],   -- 0x01
   [INS.ADD, TYPE_REG ||| TYPE_BYTE ||| TYPE_BOTH, TYPE_MODRM ||| TYPE_BYTE ||| TYPE_IN],   -- 0x02
   [INS.ADD, TYPE_REG ||| TYPE_VWORD ||| TYPE_BOTH, TYPE_MODRM ||| TYPE_VWORD ||| TYPE_IN],   -- 0x03
   [INS.ADD, TYPE_AL ||| TYPE_BOTH, TYPE_IMM ||| TYPE_BYTE ||| TYPE_IN],   -- 0x04
   [INS.ADD, TYPE_AX ||| TYPE_BOTH, TYPE_IMM ||| TYPE_VWORD ||| TYPE_IN],   -- 0x05
   [INS.PUSH, TYPE_ES ||| TYPE_IN],   -- 0x06
   [INS.POP, TYPE_ES ||| TYPE_OUT],   -- 0x07
   [INS.OR, TYPE_MODRM ||| TYPE_BYTE ||| TYPE_BOTH, TYPE_REG ||| TYPE_BYTE ||| TYPE_IN],   -- 0x08
   [INS.OR, TYPE_MODRM ||| TYPE_VWORD ||| TYPE_BOTH, TYPE_REG ||| TYPE_VWORD ||| TYPE_IN],   -- 0x09
   [INS.OR, TYPE_REG ||| TYPE_BYTE ||| TYPE_BOTH, TYPE_MODRM ||| TYPE_BYTE ||| TYPE_IN],   -- 0x0A
   [INS.OR, TYPE_REG ||| TYPE_VWORD ||| TYPE_BOTH, TYPE_MODRM ||| TYPE_VWORD ||| TYPE_IN],   -- 0x0B
   [INS.OR, TYPE_AL ||| TYPE_BOTH, TYPE_IMM ||| TYPE_BYTE ||| TYPE_IN],   -- 0x0C
   [INS.OR, TYPE_AX ||| TYPE_BOTH, TYPE_IMM ||| TYPE_VWORD ||| TYPE_IN],   -- 0x0D
   [INS.PUSH, TYPE_CS ||| TYPE_IN],   -- 0x0E
   aOpDescPopCS,   -- 0x0F
   [INS.ADC, TYPE_MODRM ||| TYPE_BYTE ||| TYPE_BOTH, TYPE_REG ||| TYPE_BYTE ||| TYPE_IN],   -- 0x10
   [INS.ADC, TYPE_MODRM ||| TYPE_VWORD ||| TYPE_BOTH, TYPE_REG ||| TYPE_VWORD ||| TYPE_IN],   -- 0x11
   [INS.ADC, TYPE_REG ||| TYPE_BYTE ||| TYPE_BOTH, TYPE_MODRM ||| TYPE_BYTE ||| TYPE_IN],   -- 0x12
   [INS.ADC, TYPE_REG ||| TYPE_VWORD ||| TYPE_BOTH, TYPE_MODRM ||| TYPE_VWORD ||| TYPE_IN],   -- 0x13
   [INS.ADC, TYPE_AL ||| TYPE_BOTH, TYPE_IMM ||| TYPE_BYTE ||| TYPE_IN],   -- 0x14
   [INS.ADC, TYPE_AX ||| TYPE_BOTH, TYPE_IMM ||| TYPE_VWORD ||| TYPE_IN],   -- 0x15
   [INS.PUSH, TYPE_SS ||| TYPE_IN],   -- 0x16
   [INS.POP, TYPE_SS ||| TYPE_OUT],   -- 0x17
   [INS.SBB, TYPE_MODRM ||| TYPE_BYTE ||| TYPE_BOTH, TYPE_REG ||| TYPE_BYTE ||| TYPE_IN],   -- 0x18
   [INS.SBB, TYPE_MODRM ||| TYPE_VWORD ||| TYPE_BOTH, TYPE_REG ||| TYPE_VWORD ||| TYPE_IN],   -- 0x19
   [INS.SBB, TYPE_REG ||| TYPE_BYTE ||| TYPE_BOTH, TYPE_MODRM ||| TYPE_BYTE ||| TYPE_IN],   -- 0x1A
   [INS.SBB, TYPE_REG ||| TYPE_VWORD ||| TYPE_BOTH, TYPE_MODRM ||| TYPE_VWORD ||| TYPE_IN],   -- 0x1B
   [INS.SBB, TYPE_AL ||| TYPE_BOTH, TYPE_IMM ||| TYPE_BYTE ||| TYPE_IN],   -- 0x1C
   [INS.SBB, TYPE_AX ||| TYPE_BOTH, TYPE_IMM ||| TYPE_VWORD ||| TYPE_IN],   -- 0x1D
   [INS.PUSH, TYPE_DS ||| TYPE_IN],   -- 0x1E
   [INS.POP, TYPE_DS ||| TYPE_OUT],   -- 0x1F
   [INS.AND, TYPE_MODRM ||| TYPE_BYTE ||| TYPE_BOTH, TYPE_REG ||| TYPE_BYTE ||| TYPE_IN],   -- 0x20
   [INS.AND, TYPE_MODRM ||| TYPE_VWORD ||| TYPE_BOTH, TYPE_REG ||| TYPE_VWORD ||| TYPE_IN],   -- 0x21
   [INS.AND, TYPE_REG ||| TYPE_BYTE ||| TYPE_BOTH, TYPE_MODRM ||| TYPE_BYTE ||| TYPE_IN],   -- 0x22
   [INS.AND, TYPE_REG ||| TYPE_VWORD ||| TYPE_BOTH, TYPE_MODRM ||| TYPE_VWORD ||| TYPE_IN],   -- 0x23
   [INS.AND, TYPE_AL ||| TYPE_BOTH, TYPE_IMM ||| TYPE_BYTE ||| TYPE_IN],   -- 0x24
   [INS.AND, TYPE_AX ||| TYPE_BOTH, TYPE_IMM ||| TYPE_VWORD ||| TYPE_IN],   -- 0x25
   [INS.ES, TYPE_PFX],   -- 0x26
   [INS.DAA],   -- 0x27
   [INS.SUB, TYPE_MODRM ||| TYPE_BYTE ||| TYPE_BOTH, TYPE_REG ||| TYPE_BYTE ||| TYPE_IN],   -- 0x28
   [INS.SUB, TYPE_MODRM ||| TYPE_VWORD ||| TYPE_BOTH, TYPE_REG ||| TYPE_VWORD ||| TYPE_IN],   -- 0x29
   [INS.SUB, TYPE_REG ||| TYPE_BYTE ||| TYPE_BOTH, TYPE_MODRM ||| TYPE_BYTE ||| TYPE_IN],   -- 0x2A
   [INS.SUB, TYPE_REG ||| TYPE_VWORD ||| TYPE_BOTH, TYPE_MODRM ||| TYPE_VWORD ||| TYPE_IN],   -- 0x2B
   [INS.SUB, TYPE_AL ||| TYPE_BOTH, TYPE_IMM ||| TYPE_BYTE ||| TYPE_IN],   -- 0x2C
   [INS.SUB, TYPE_AX ||| TYPE_BOTH, TYPE_IMM ||| TYPE_VWORD ||| TYPE_IN],   -- 0x2D
   [INS.CS, TYPE_PFX],   -- 0x2E
   [INS.DAS],   -- 0x2F
   [INS.XOR, TYPE_MODRM ||| TYPE_BYTE ||| TYPE_BOTH, TYPE_REG ||| TYPE_BYTE ||| TYPE_IN],   -- 0x30
   [INS.XOR, TYPE_MODRM ||| TYPE_VWORD ||| TYPE_BOTH, TYPE_REG ||| TYPE_VWORD ||| TYPE_IN],   -- 0x31
   [INS.XOR, TYPE_REG ||| TYPE_BYTE ||| TYPE_BOTH, TYPE_MODRM ||| TYPE_BYTE ||| TYPE_IN],   -- 0x32
   [INS.XOR, TYPE_REG ||| TYPE_VWORD ||| TYPE_BOTH, TYPE_MODRM ||| TYPE_VWORD ||| TYPE_IN],   -- 0x33
   [INS.XOR, TYPE_AL ||| TYPE_BOTH, TYPE_IMM ||| TYPE_BYTE ||| TYPE_IN],   -- 0x34
   [INS.XOR, TYPE_AX ||| TYPE_BOTH, TYPE_IMM ||| TYPE_VWORD ||| TYPE_IN],   -- 0x35
   [INS.SS, TYPE_PFX],   -- 0x36
   [INS.AAA],   -- 0x37
   [INS.CMP, TYPE_MODRM ||| TYPE_BYTE ||| TYPE_IN, TYPE_REG ||| TYPE_BYTE ||| TYPE_IN],   -- 0x38
   [INS.CMP, TYPE_MODRM ||| TYPE_VWORD ||| TYPE_IN, TYPE_REG ||| TYPE_VWORD ||| TYPE_IN],   -- 0x39
   [INS.CMP, TYPE_REG ||| TYPE_BYTE ||| TYPE_IN, TYPE_MODRM ||| TYPE_BYTE ||| TYPE_IN],   -- 0x3A
   [INS.CMP, TYPE_REG ||| TYPE_VWORD ||| TYPE_IN, TYPE_MODRM ||| TYPE_VWORD ||| TYPE_IN],   -- 0x3B
   [INS.CMP, TYPE_AL ||| TYPE_IN, TYPE_IMM ||| TYPE_BYTE ||| TYPE_IN],   -- 0x3C
   [INS.CMP, TYPE_AX ||| TYPE_IN, TYPE_IMM ||| TYPE_VWORD ||| TYPE_IN],   -- 0x3D
   [INS.DS, TYPE_PFX],   -- 0x3E
   [INS.AAS],   -- 0x3F
   [INS.INC, TYPE_AX ||| TYPE_BOTH],   -- 0x40
   [INS.INC, TYPE_CX ||| TYPE_BOTH],   -- 0x41
   [INS.INC, TYPE_DX ||| TYPE_BOTH],   -- 0x42
   [INS.INC, TYPE_BX ||| TYPE_BOTH],   -- 0x43
   [INS.INC, TYPE_SP ||| TYPE_BOTH],   -- 0x44
   [INS.INC, TYPE_BP ||| TYPE_BOTH],   -- 0x45
   [INS.INC, TYPE_SI ||| TYPE_BOTH],   -- 0x46
   [INS.INC, TYPE_DI ||| TYPE_BOTH],   -- 0x47
   [INS.DEC, TYPE_AX ||| TYPE_BOTH],   -- 0x48
   [INS.DEC, TYPE_CX ||| TYPE_BOTH],   -- 0x49
   [INS.DEC, TYPE_DX ||| TYPE_BOTH],   -- 0x4A
   [INS.DEC, TYPE_BX ||| TYPE_BOTH],   -- 0x4B
   [INS.DEC, TYPE_SP ||| TYPE_BOTH],   -- 0x4C
   [INS.DEC, TYPE_BP ||| TYPE_BOTH],   -- 0x4D
   [INS.DEC, TYPE_SI ||| TYPE_BOTH],   -- 0x4E
   [INS.DEC, TYPE_DI ||| TYPE_BOTH],   -- 0x4F
   [INS.PUSH, TYPE_AX ||| TYPE_IN],   -- 0x50
   [INS.PUSH, TYPE_CX ||| TYPE_IN],   -- 0x51
   [INS.PUSH, TYPE_DX ||| TYPE_IN],   -- 0x52
   [INS.PUSH, TYPE_BX ||| TYPE_IN],   -- 0x53
   [INS.PUSH, TYPE_SP ||| TYPE_IN],   -- 0x54
   [INS.PUSH, TYPE_BP ||| TYPE_IN],   -- 0x55
   [INS.PUSH, TYPE_SI ||| TYPE_IN],   -- 0x56
   [INS.PUSH, TYPE_DI ||| TYPE_IN],   -- 0x57
   [INS.POP, TYPE_AX ||| TYPE_OUT],   -- 0x58
   [INS.POP, TYPE_CX ||| TYPE_OUT],   -- 0x59
   [INS.POP, TYPE_DX ||| TYPE_OUT],   -- 0x5A
   [INS.POP, TYPE_BX ||| TYPE_OUT],   -- 0x5B
   [INS.POP, TYPE_SP ||| TYPE_OUT],   -- 0x5C
   [INS.POP, TYPE_BP ||| TYPE_OUT],   -- 0x5D
   [INS.POP, TYPE_SI ||| TYPE_OUT],   -- 0x5E
   [INS.POP, TYPE_DI ||| TYPE_OUT],   -- 0x5F
   [INS.PUSHA, TYPE_NONE ||| TYPE_80286],   -- 0x60
   [INS.POPA, TYPE_NONE ||| TYPE_80286],   -- 0x61
   [INS.BOUND, TYPE_REG ||| TYPE_VWORD ||| TYPE_IN ||| TYPE_80286, TYPE_MODRM ||| TYPE_2WORD ||| TYPE_IN],   -- 0x62
   [INS.ARPL, TYPE_MODRM ||| TYPE_WORD ||| TYPE_OUT, TYPE_REG ||| TYPE_WORD ||| TYPE_IN],   -- 0x63
   [INS.FS, TYPE_PFX ||| TYPE_80386],   -- 0x64
   [INS.GS, TYPE_PFX ||| TYPE_80386],   -- 0x65
   [INS.OS, TYPE_PFX ||| TYPE_80386],   -- 0x66
   [INS.AS, TYPE_PFX ||| TYPE_80386],   -- 0x67
   [INS.PUSH, TYPE_IMM ||| TYPE_VWORD ||| TYPE_IN ||| TYPE_80286],   -- 0x68
   [INS.IMUL, TYPE_REG ||| TYPE_WORD ||| TYPE_BOTH ||| TYPE_80286, TYPE_MODRM ||| TYPE_WORDIW ||| TYPE_IN],   -- 0x69
   [INS.PUSH, TYPE_IMM ||| TYPE_SBYTE ||| TYPE_IN ||| TYPE_80286],   -- 0x6A
   [INS.IMUL, TYPE_REG ||| TYPE_WORD ||| TYPE_BOTH ||| TYPE_80286, TYPE_MODRM ||| TYPE_WORDIB ||| TYPE_IN],   -- 0x6B
   [INS.INS, TYPE_ESDI ||| TYPE_BYTE ||| TYPE_OUT ||| TYPE_80286, TYPE_DX ||| TYPE_IN],   -- 0x6C
   [INS.INS, TYPE_ESDI ||| TYPE_VWORD ||| TYPE_OUT ||| TYPE_80286, TYPE_DX ||| TYPE_IN],   -- 0x6D
   [INS.OUTS, TYPE_DX ||| TYPE_IN ||| TYPE_80286, TYPE_DSSI ||| TYPE_BYTE ||| TYPE_IN],   -- 0x6E
   [INS.OUTS, TYPE_DX ||| TYPE_IN ||| TYPE_80286, TYPE_DSSI ||| TYPE_VWORD ||| TYPE_IN],   -- 0x6F
   [INS.JO, TYPE_IMMREL ||| TYPE_BYTE ||| TYPE_IN],   -- 0x70
   [INS.JNO, TYPE_IMMREL ||| TYPE_BYTE ||| TYPE_IN],   -- 0x71
   [INS.JC, TYPE_IMMREL ||| TYPE_BYTE ||| TYPE_IN],   -- 0x72
   [INS.JNC, TYPE_IMMREL ||| TYPE_BYTE ||| TYPE_IN],   -- 0x73
   [INS.JZ, TYPE_IMMREL ||| TYPE_BYTE ||| TYPE_IN],   -- 0x74
   [INS.JNZ, TYPE_IMMREL ||| TYPE_BYTE ||| TYPE_IN],   -- 0x75
   [INS.JBE, TYPE_IMMREL ||| TYPE_BYTE ||| TYPE_IN],   -- 0x76
   [INS.JA, TYPE_IMMREL ||| TYPE_BYTE ||| TYPE_IN],   -- 0x77
   [INS.JS, TYPE_IMMREL ||| TYPE_BYTE ||| TYPE_IN],   -- 0x78
   [INS.JNS, TYPE_IMMREL ||| TYPE_BYTE ||| TYPE_IN],   -- 0x79
   [INS.JP, TYPE_IMMREL ||| TYPE_BYTE ||| TYPE_IN],   -- 0x7A
   [INS.JNP, TYPE_IMMREL ||| TYPE_BYTE ||| TYPE_IN],   -- 0x7B
   [INS.JL, TYPE_IMMREL ||| TYPE_BYTE ||| TYPE_IN],   -- 0x7C
   [INS.JGE, TYPE_IMMREL ||| TYPE_BYTE ||| TYPE_IN],   -- 0x7D
   [INS.JLE, TYPE_IMMREL ||| TYPE_BYTE ||| TYPE_IN],   -- 0x7E
   [INS.JG, TYPE_IMMREL ||| TYPE_BYTE ||| TYPE_IN],   -- 0x7F
   [INS.GRP1B, TYPE_MODRM ||| TYPE_BYTE ||| TYPE_BOTH, TYPE_IMM ||| TYPE_BYTE ||| TYPE_IN],   -- 0x80
   [INS.GRP1W, TYPE_MODRM ||| TYPE_VWORD ||| TYPE_BOTH, TYPE_IMM ||| TYPE_VWORD ||| TYPE_IN],   -- 0x81
   [INS.GRP1B, TYPE_MODRM ||| TYPE_BYTE ||| TYPE_BOTH, TYPE_IMM ||| TYPE_BYTE ||| TYPE_IN],   -- 0x82
   [INS.GRP1SW,TYPE_MODRM ||| TYPE_VWORD ||| TYPE_BOTH, TYPE_IMM ||| TYPE_BYTE ||| TYPE_IN],   -- 0x83
   [INS.TEST, TYPE_MODRM ||| TYPE_BYTE ||| TYPE_IN, TYPE_REG ||| TYPE_BYTE ||| TYPE_IN],   -- 0x84
   [INS.TEST, TYPE_MODRM ||| TYPE_VWORD ||| TYPE_IN, TYPE_REG ||| TYPE_VWORD ||| TYPE_IN],   -- 0x85
   [INS.XCHG, TYPE_REG ||| TYPE_BYTE ||| TYPE_BOTH, TYPE_MODRM ||| TYPE_BYTE ||| TYPE_BOTH],   -- 0x86
   [INS.XCHG, TYPE_REG ||| TYPE_VWORD ||| TYPE_BOTH, TYPE_MODRM ||| TYPE_VWORD ||| TYPE_BOTH],   -- 0x87
   [INS.MOV, TYPE_MODRM ||| TYPE_BYTE ||| TYPE_OUT, TYPE_REG ||| TYPE_BYTE ||| TYPE_IN],   -- 0x88
   [INS.MOV, TYPE_MODRM ||| TYPE_VWORD ||| TYPE_OUT, TYPE_REG ||| TYPE_VWORD ||| TYPE_IN],   -- 0x89
   [INS.MOV, TYPE_REG ||| TYPE_BYTE ||| TYPE_OUT, TYPE_MODRM ||| TYPE_BYTE ||| TYPE_IN],   -- 0x8A
   [INS.MOV, TYPE_REG ||| TYPE_VWORD ||| TYPE_OUT, TYPE_MODRM ||| TYPE_VWORD ||| TYPE_IN],   -- 0x8B
   [INS.MOV, TYPE_MODRM ||| TYPE_VWORD ||| TYPE_OUT, TYPE_SEGREG ||| TYPE_WORD ||| TYPE_IN],   -- 0x8C
   [INS.LEA, TYPE_REG ||| TYPE_VWORD ||| TYPE_OUT, TYPE_MODMEM ||| TYPE_VWORD],   -- 0x8D
   [INS.MOV, TYPE_SEGREG ||| TYPE_WORD ||| TYPE_OUT, TYPE_MODRM ||| TYPE_VWORD ||| TYPE_IN],   -- 0x8E
   [INS.POP, TYPE_MODRM ||| TYPE_VWORD ||| TYPE_OUT],   -- 0x8F
   [INS.NOP],   -- 0x90
   [INS.XCHG, TYPE_AX ||| TYPE_BOTH, TYPE_CX ||| TYPE_BOTH],   -- 0x91
   [INS.XCHG, TYPE_AX ||| TYPE_BOTH, TYPE_DX ||| TYPE_BOTH],   -- 0x92
   [INS.XCHG, TYPE_AX ||| TYPE_BOTH, TYPE_BX ||| TYPE_BOTH],   -- 0x93
   [INS.XCHG, TYPE_AX ||| TYPE_BOTH, TYPE_SP ||| TYPE_BOTH],   -- 0x94
   [INS.XCHG, TYPE_AX ||| TYPE_BOTH, TYPE_BP ||| TYPE_BOTH],   -- 0x95
   [INS.XCHG, TYPE_AX ||| TYPE_BOTH, TYPE_SI ||| TYPE_BOTH],   -- 0x96
   [INS.XCHG, TYPE_AX ||| TYPE_BOTH, TYPE_DI ||| TYPE_BOTH],   -- 0x97
   [INS.CBW],   -- 0x98
   [INS.CWD],   -- 0x99
   [INS.CALL, TYPE_IMM ||| TYPE_FARP ||| TYPE_IN],   -- 0x9A
   [INS.WAIT],   -- 0x9B
   [INS.PUSHF],   -- 0x9C
   [INS.POPF],   -- 0x9D
   [INS.SAHF],   -- 0x9E
   [INS.LAHF],   -- 0x9F
   [INS.MOV, TYPE_AL ||| TYPE_OUT, TYPE_IMMOFF ||| TYPE_BYTE ||| TYPE_IN],   -- 0xA0
   [INS.MOV, TYPE_AX ||| TYPE_OUT, TYPE_IMMOFF ||| TYPE_VWORD ||| TYPE_IN],   -- 0xA1
   [INS.MOV, TYPE_IMMOFF ||| TYPE_BYTE ||| TYPE_OUT, TYPE_AL ||| TYPE_IN],   -- 0xA2
   [INS.MOV, TYPE_IMMOFF ||| TYPE_VWORD ||| TYPE_OUT, TYPE_AX ||| TYPE_IN],   -- 0xA3
   [INS.MOVSB, TYPE_ESDI ||| TYPE_BYTE ||| TYPE_OUT, TYPE_DSSI ||| TYPE_BYTE ||| TYPE_IN],   -- 0xA4
   [INS.MOVSW, TYPE_ESDI ||| TYPE_VWORD ||| TYPE_OUT, TYPE_DSSI ||| TYPE_VWORD ||| TYPE_IN],   -- 0xA5
   [INS.CMPSB, TYPE_ESDI ||| TYPE_BYTE ||| TYPE_IN, TYPE_DSSI ||| TYPE_BYTE ||| TYPE_IN],   -- 0xA6
   [INS.CMPSW, TYPE_ESDI ||| TYPE_VWORD ||| TYPE_IN, TYPE_DSSI ||| TYPE_VWORD ||| TYPE_IN],   -- 0xA7
   [INS.TEST, TYPE_AL ||| TYPE_IN, TYPE_IMM ||| TYPE_BYTE ||| TYPE_IN],   -- 0xA8
   [INS.TEST, TYPE_AX ||| TYPE_IN, TYPE_IMM ||| TYPE_VWORD ||| TYPE_IN],   -- 0xA9
   [INS.STOSB, TYPE_ESDI ||| TYPE_BYTE ||| TYPE_OUT, TYPE_AL ||| TYPE_IN],   -- 0xAA
   [INS.STOSW, TYPE_ESDI ||| TYPE_VWORD ||| TYPE_OUT, TYPE_AX ||| TYPE_IN],   -- 0xAB
   [INS.LODSB, TYPE_AL ||| TYPE_OUT, TYPE_DSSI ||| TYPE_BYTE ||| TYPE_IN],   -- 0xAC
   [INS.LODSW, TYPE_AX ||| TYPE_OUT, TYPE_DSSI ||| TYPE_VWORD ||| TYPE_IN],   -- 0xAD
   [INS.SCASB, TYPE_AL ||| TYPE_IN, TYPE_ESDI ||| TYPE_BYTE ||| TYPE_IN],   -- 0xAE
   [INS.SCASW, TYPE_AX ||| TYPE_IN, TYPE_ESDI ||| TYPE_VWORD ||| TYPE_IN],   -- 0xAF
   [INS.MOV, TYPE_AL ||| TYPE_OUT, TYPE_IMM ||| TYPE_BYTE ||| TYPE_IN],   -- 0xB0
   [INS.MOV, TYPE_CL ||| TYPE_OUT, TYPE_IMM ||| TYPE_BYTE ||| TYPE_IN],   -- 0xB1
   [INS.MOV, TYPE_DL ||| TYPE_OUT, TYPE_IMM ||| TYPE_BYTE ||| TYPE_IN],   -- 0xB2
   [INS.MOV, TYPE_BL ||| TYPE_OUT, TYPE_IMM ||| TYPE_BYTE ||| TYPE_IN],   -- 0xB3
   [INS.MOV, TYPE_AH ||| TYPE_OUT, TYPE_IMM ||| TYPE_BYTE ||| TYPE_IN],   -- 0xB4
   [INS.MOV, TYPE_CH ||| TYPE_OUT, TYPE_IMM ||| TYPE_BYTE ||| TYPE_IN],   -- 0xB5
   [INS.MOV, TYPE_DH ||| TYPE_OUT, TYPE_IMM ||| TYPE_BYTE ||| TYPE_IN],   -- 0xB6
   [INS.MOV, TYPE_BH ||| TYPE_OUT, TYPE_IMM ||| TYPE_BYTE ||| TYPE_IN],   -- 0xB7
   [INS.MOV, TYPE_AX ||| TYPE_OUT, TYPE_IMM ||| TYPE_VWORD ||| TYPE_IN],   -- 0xB8
   [INS.MOV, TYPE_CX ||| TYPE_OUT, TYPE_IMM ||| TYPE_VWORD ||| TYPE_IN],   -- 0xB9
   [INS.MOV, TYPE_DX ||| TYPE_OUT, TYPE_IMM ||| TYPE_VWORD ||| TYPE_IN],   -- 0xBA
   [INS.MOV, TYPE_BX ||| TYPE_OUT, TYPE_IMM ||| TYPE_VWORD ||| TYPE_IN],   -- 0xBB
   [INS.MOV, TYPE_SP ||| TYPE_OUT, TYPE_IMM ||| TYPE_VWORD ||| TYPE_IN],   -- 0xBC
   [INS.MOV, TYPE_BP ||| TYPE_OUT, TYPE_IMM ||| TYPE_VWORD ||| TYPE_IN],   -- 0xBD
   [INS.MOV, TYPE_SI ||| TYPE_OUT, TYPE_IMM ||| TYPE_VWORD ||| TYPE_IN],   -- 0xBE
   [INS.MOV, TYPE_DI ||| TYPE_OUT, TYPE_IMM ||| TYPE_VWORD ||| TYPE_IN],   -- 0xBF
   [INS.GRP2B, TYPE_MODRM ||| TYPE_BYTE ||| TYPE_BOTH ||| TYPE_80186, TYPE_IMM ||| TYPE_BYTE ||| TYPE_IN],   -- 0xC0
   [INS.GRP2W, TYPE_MODRM ||| TYPE_VWORD ||| TYPE_BOTH ||| TYPE_80186, TYPE_IMM ||| TYPE_BYTE ||| TYPE_IN],   -- 0xC1
   [INS.RET, TYPE_IMM ||| TYPE_WORD ||| TYPE_IN],   -- 0xC2
   [INS.RET],   -- 0xC3
   [INS.LES, TYPE_REG ||| TYPE_VWORD ||| TYPE_OUT, TYPE_MODMEM ||| TYPE_SEGP ||| TYPE_IN],   -- 0xC4
   [INS.LDS, TYPE_REG ||| TYPE_VWORD ||| TYPE_OUT, TYPE_MODMEM ||| TYPE_SEGP ||| TYPE_IN],   -- 0xC5
   [INS.MOV, TYPE_MODRM ||| TYPE_BYTE ||| TYPE_OUT, TYPE_IMM ||| TYPE_BYTE ||| TYPE_IN],   -- 0xC6
   [INS.MOV, TYPE_MODRM ||| TYPE_VWORD ||| TYPE_OUT, TYPE_IMM ||| TYPE_VWORD ||| TYPE_IN],   -- 0xC7
   [INS.ENTER, TYPE_IMM ||| TYPE_WORD ||| TYPE_IN ||| TYPE_80286, TYPE_IMM ||| TYPE_BYTE ||| TYPE_IN],   -- 0xC8
   [INS.LEAVE, TYPE_NONE ||| TYPE_80286],   -- 0xC9
   [INS.RETF, TYPE_IMM ||| TYPE_WORD ||| TYPE_IN],   -- 0xCA
   [INS.RETF],   -- 0xCB
   [INS.INT3],   -- 0xCC
   [INS.INT, TYPE_IMM ||| TYPE_BYTE ||| TYPE_IN],   -- 0xCD
   [INS.INTO],   -- 0xCE
   [INS.IRET],   -- 0xCF
   [INS.GRP2B1,TYPE_MODRM ||| TYPE_BYTE ||| TYPE_BOTH, TYPE_ONE ||| TYPE_BYTE ||| TYPE_IN],   -- 0xD0
   [INS.GRP2W1,TYPE_MODRM ||| TYPE_VWORD ||| TYPE_BOTH, TYPE_ONE ||| TYPE_BYTE ||| TYPE_IN],   -- 0xD1
   [INS.GRP2BC,TYPE_MODRM ||| TYPE_BYTE ||| TYPE_BOTH, TYPE_IMPREG ||| TYPE_CL ||| TYPE_IN],   -- 0xD2
   [INS.GRP2WC,TYPE_MODRM ||| TYPE_VWORD ||| TYPE_BOTH, TYPE_IMPREG ||| TYPE_CL ||| TYPE_IN],   -- 0xD3
   [INS.AAM, TYPE_IMM ||| TYPE_BYTE],   -- 0xD4
   [INS.AAD, TYPE_IMM ||| TYPE_BYTE],   -- 0xD5
   [INS.SALC],   -- 0xD6
   [INS.XLAT],   -- 0xD7
   [INS.ESC, TYPE_MODRM ||| TYPE_VWORD ||| TYPE_IN],   -- 0xD8
   [INS.ESC, TYPE_MODRM ||| TYPE_VWORD ||| TYPE_IN],   -- 0xD9
   [INS.ESC, TYPE_MODRM ||| TYPE_VWORD ||| TYPE_IN],   -- 0xDA
   [INS.ESC, TYPE_MODRM ||| TYPE_VWORD ||| TYPE_IN],   -- 0xDB
   [INS.ESC, TYPE_MODRM ||| TYPE_VWORD ||| TYPE_IN],   -- 0xDC
   [INS.ESC, TYPE_MODRM ||| TYPE_VWORD ||| TYPE_IN],   -- 0xDD
   [INS.ESC, TYPE_MODRM ||| TYPE_VWORD ||| TYPE_IN],   -- 0xDE
   [INS.ESC, TYPE_MODRM ||| TYPE_VWORD ||| TYPE_IN],   -- 0xDF
   [INS.LOOPNZ,TYPE_IMMREL ||| TYPE_BYTE ||| TYPE_IN],   -- 0xE0
   [INS.LOOPZ, TYPE_IMMREL ||| TYPE_BYTE ||| TYPE_IN],   -- 0xE1
   [INS.LOOP, TYPE_IMMREL ||| TYPE_BYTE ||| TYPE_IN],   -- 0xE2
   [INS.JCXZ, TYPE_IMMREL ||| TYPE_BYTE ||| TYPE_IN],   -- 0xE3
   [INS.IN, TYPE_AL ||| TYPE_OUT, TYPE_IMM ||| TYPE_BYTE ||| TYPE_IN],   -- 0xE4
   [INS.IN, TYPE_AX ||| TYPE_OUT, TYPE_IMM ||| TYPE_BYTE ||| TYPE_IN],   -- 0xE5
   [INS.OUT, TYPE_IMM ||| TYPE_BYTE ||| TYPE_IN, TYPE_AL ||| TYPE_IN],   -- 0xE6
   [INS.OUT, TYPE_IMM ||| TYPE_BYTE ||| TYPE_IN, TYPE_AX ||| TYPE_IN],   -- 0xE7
   [INS.CALL, TYPE_IMMREL ||| TYPE_VWORD ||| TYPE_IN],   -- 0xE8
   [INS.JMP, TYPE_IMMREL ||| TYPE_VWORD ||| TYPE_IN],   -- 0xE9
   [INS.JMP, TYPE_IMM ||| TYPE_FARP ||| TYPE_IN],   -- 0xEA
   [INS.JMP, TYPE_IMMREL ||| TYPE_BYTE ||| TYPE_IN],   -- 0xEB
   [INS.IN, TYPE_AL ||| TYPE_OUT, TYPE_DX ||| TYPE_IN],   -- 0xEC
   [INS.IN, TYPE_AX ||| TYPE_OUT, TYPE_DX ||| TYPE_IN],   -- 0xED
   [INS.OUT, TYPE_DX ||| TYPE_IN, TYPE_AL ||| TYPE_IN],   -- 0xEE
   [INS.OUT, TYPE_DX ||| TYPE_IN, TYPE_AX ||| TYPE_IN],   -- 0xEF
   [INS.LOCK, TYPE_PFX],   -- 0xF0
   [INS.NONE],   -- 0xF1
   [INS.REPNZ, TYPE_PFX],   -- 0xF2
   [INS.REPZ, TYPE_PFX],   -- 0xF3
   [INS.HLT],   -- 0xF4
   [INS.CMC],   -- 0xF5
   [INS.GRP3B, TYPE_MODRM ||| TYPE_BYTE ||| TYPE_BOTH],   -- 0xF6
   [INS.GRP3W, TYPE_MODRM ||| TYPE_VWORD ||| TYPE_BOTH],   -- 0xF7
   [INS.CLC],   -- 0xF8
   [INS.STC],   -- 0xF9
   [INS.CLI],   -- 0xFA
   [INS.STI],   -- 0xFB
   [INS.CLD],   -- 0xFC
   [INS.STD],   -- 0xFD
   [INS.GRP4B, TYPE_MODRM ||| TYPE_BYTE ||| TYPE_BOTH],   -- 0xFE
   [INS.GRP4W, TYPE_MODRM ||| TYPE_VWORD ||| TYPE_BOTH]   -- 0xFF
  ]

/-- Debugger.aaOp0FDescs: the sparse two-byte (0F-prefixed) opcode table. -/
def aaOp0FDescsList : List (Int × OpDesc) :=
  [
   (0x00, [INS.GRP6, TYPE_MODRM ||| TYPE_WORD ||| TYPE_BOTH]),
   (0x01, [INS.GRP7, TYPE_MODRM ||| TYPE_WORD ||| TYPE_BOTH]),
   (0x02, [INS.LAR, TYPE_REG ||| TYPE_WORD ||| TYPE_OUT ||| TYPE_80286, TYPE_MODMEM ||| TYPE_WORD ||| TYPE_IN]),
   (0x03, [INS.LSL, TYPE_REG ||| TYPE_WORD ||| TYPE_OUT ||| TYPE_80286, TYPE_MODMEM ||| TYPE_WORD ||| TYPE_IN]),
   (0x05, [INS.LOADALL,TYPE_80286]),
   (0x06, [INS.CLTS, TYPE_80286]),
   (0x20, [INS.MOV, TYPE_MODREG ||| TYPE_DWORD ||| TYPE_OUT ||| TYPE_80386, TYPE_CTLREG ||| TYPE_DWORD ||| TYPE_IN]),
   (0x21, [INS.MOV, TYPE_MODREG ||| TYPE_DWORD ||| TYPE_OUT ||| TYPE_80386, TYPE_DBGREG ||| TYPE_DWORD ||| TYPE_IN]),
   (0x22, [INS.MOV, TYPE_CTLREG ||| TYPE_DWORD ||| TYPE_OUT ||| TYPE_80386, TYPE_MODREG ||| TYPE_DWORD ||| TYPE_IN]),
   (0x23, [INS.MOV, TYPE_DBGREG ||| TYPE_DWORD ||| TYPE_OUT ||| TYPE_80386, TYPE_MODREG ||| TYPE_DWORD ||| TYPE_IN]),
   (0x24, [INS.MOV, TYPE_MODREG ||| TYPE_DWORD ||| TYPE_OUT ||| TYPE_80386, TYPE_TSTREG ||| TYPE_DWORD ||| TYPE_IN]),
   (0x26, [INS.MOV, TYPE_TSTREG ||| TYPE_DWORD ||| TYPE_OUT ||| TYPE_80386, TYPE_MODREG ||| TYPE_DWORD ||| TYPE_IN]),
   (0x80, [INS.JO, TYPE_IMMREL ||| TYPE_VWORD ||| TYPE_IN ||| TYPE_80386]),
   (0x81, [INS.JNO, TYPE_IMMREL ||| TYPE_VWORD ||| TYPE_IN ||| TYPE_80386]),
   (0x82, [INS.JC, TYPE_IMMREL ||| TYPE_VWORD ||| TYPE_IN ||| TYPE_80386]),
   (0x83, [INS.JNC, TYPE_IMMREL ||| TYPE_VWORD ||| TYPE_IN ||| TYPE_80386]),
   (0x84, [INS.JZ, TYPE_IMMREL ||| TYPE_VWORD ||| TYPE_IN ||| TYPE_80386]),
   (0x85, [INS.JNZ, TYPE_IMMREL ||| TYPE_VWORD ||| TYPE_IN ||| TYPE_80386]),
   (0x86, [INS.JBE, TYPE_IMMREL ||| TYPE_VWORD ||| TYPE_IN ||| TYPE_80386]),
   (0x87, [INS.JA, TYPE_IMMREL ||| TYPE_VWORD ||| TYPE_IN ||| TYPE_80386]),
   (0x88, [INS.JS, TYPE_IMMREL ||| TYPE_VWORD ||| TYPE_IN ||| TYPE_80386]),
   (0x89, [INS.JNS, TYPE_IMMREL ||| TYPE_VWORD ||| TYPE_IN ||| TYPE_80386]),
   (0x8A, [INS.JP, TYPE_IMMREL ||| TYPE_VWORD ||| TYPE_IN ||| TYPE_80386]),
   (0x8B, [INS.JNP, TYPE_IMMREL ||| TYPE_VWORD ||| TYPE_IN ||| TYPE_80386]),
   (0x8C, [INS.JL, TYPE_IMMREL ||| TYPE_VWORD ||| TYPE_IN ||| TYPE_80386]),
   (0x8D, [INS.JGE, TYPE_IMMREL ||| TYPE_VWORD ||| TYPE_IN ||| TYPE_80386]),
   (0x8E, [INS.JLE, TYPE_IMMREL ||| TYPE_VWORD ||| TYPE_IN ||| TYPE_80386]),
   (0x8F, [INS.JG, TYPE_IMMREL ||| TYPE_VWORD ||| TYPE_IN ||| TYPE_80386]),
   (0x90, [INS.SETO, TYPE_MODRM ||| TYPE_BYTE ||| TYPE_OUT ||| TYPE_80386]),
   (0x91, [INS.SETNO, TYPE_MODRM ||| TYPE_BYTE ||| TYPE_OUT ||| TYPE_80386]),
   (0x92, [INS.SETC, TYPE_MODRM ||| TYPE_BYTE ||| TYPE_OUT ||| TYPE_80386]),
   (0x93, [INS.SETNC, TYPE_MODRM ||| TYPE_BYTE ||| TYPE_OUT ||| TYPE_80386]),
   (0x94, [INS.SETZ, TYPE_MODRM ||| TYPE_BYTE ||| TYPE_OUT ||| TYPE_80386]),
   (0x95, [INS.SETNZ, TYPE_MODRM ||| TYPE_BYTE ||| TYPE_OUT ||| TYPE_80386]),
   (0x96, [INS.SETBE, TYPE_MODRM ||| TYPE_BYTE ||| TYPE_OUT ||| TYPE_80386]),
   (0x97, [INS.SETNBE, TYPE_MODRM ||| TYPE_BYTE ||| TYPE_OUT ||| TYPE_80386]),
   (0x98, [INS.SETS, TYPE_MODRM ||| TYPE_BYTE ||| TYPE_OUT ||| TYPE_80386]),
   (0x99, [INS.SETNS, TYPE_MODRM ||| TYPE_BYTE ||| TYPE_OUT ||| TYPE_80386]),
   (0x9A, [INS.SETP, TYPE_MODRM ||| TYPE_BYTE ||| TYPE_OUT ||| TYPE_80386]),
   (0x9B, [INS.SETNP, TYPE_MODRM ||| TYPE_BYTE ||| TYPE_OUT ||| TYPE_80386]),
   (0x9C, [INS.SETL, TYPE_MODRM ||| TYPE_BYTE ||| TYPE_OUT ||| TYPE_80386]),
   (0x9D, [INS.SETGE, TYPE_MODRM ||| TYPE_BYTE ||| TYPE_OUT ||| TYPE_80386]),
   (0x9E, [INS.SETLE, TYPE_MODRM ||| TYPE_BYTE ||| TYPE_OUT ||| TYPE_80386]),
   (0x9F, [INS.SETG, TYPE_MODRM ||| TYPE_BYTE ||| TYPE_OUT ||| TYPE_80386]),
   (0xA0, [INS.PUSH, TYPE_FS ||| TYPE_IN ||| TYPE_80386]),
   (0xA1, [INS.POP, TYPE_FS ||| TYPE_OUT ||| TYPE_80386]),
   (0xA3, [INS.BT, TYPE_MODRM ||| TYPE_VWORD ||| TYPE_IN ||| TYPE_80386, TYPE_REG ||| TYPE_VWORD ||| TYPE_IN]),
   (0xA4, [INS.SHLD, TYPE_MODRM ||| TYPE_VWORD ||| TYPE_OUT ||| TYPE_80386, TYPE_REG ||| TYPE_VWORD ||| TYPE_IN, TYPE_IMM ||| TYPE_BYTE ||| TYPE_IN]),
   (0xA5, [INS.SHLD, TYPE_MODRM ||| TYPE_VWORD ||| TYPE_OUT ||| TYPE_80386, TYPE_REG ||| TYPE_VWORD ||| TYPE_IN, TYPE_IMPREG ||| TYPE_CL ||| TYPE_IN]),
   (0xA8, [INS.PUSH, TYPE_GS ||| TYPE_IN ||| TYPE_80386]),
   (0xA9, [INS.POP, TYPE_GS ||| TYPE_OUT ||| TYPE_80386]),
   (0xAB, [INS.BTS, TYPE_MODRM ||| TYPE_VWORD ||| TYPE_OUT ||| TYPE_80386, TYPE_REG ||| TYPE_VWORD ||| TYPE_IN]),
   (0xAC, [INS.SHRD, TYPE_MODRM ||| TYPE_VWORD ||| TYPE_OUT ||| TYPE_80386, TYPE_REG ||| TYPE_VWORD ||| TYPE_IN, TYPE_IMM ||| TYPE_BYTE ||| TYPE_IN]),
   (0xAD, [INS.SHRD, TYPE_MODRM ||| TYPE_VWORD ||| TYPE_OUT ||| TYPE_80386, TYPE_REG ||| TYPE_VWORD ||| TYPE_IN, TYPE_IMPREG ||| TYPE_CL ||| TYPE_IN]),
   (0xAF, [INS.IMUL, TYPE_MODRM ||| TYPE_VWORD ||| TYPE_BOTH ||| TYPE_80386, TYPE_REG ||| TYPE_VWORD ||| TYPE_IN]),
   (0xB2, [INS.LSS, TYPE_REG ||| TYPE_VWORD ||| TYPE_OUT, TYPE_MODMEM ||| TYPE_SEGP ||| TYPE_IN]),
   (0xB3, [INS.BTR, TYPE_MODRM ||| TYPE_VWORD ||| TYPE_OUT ||| TYPE_80386, TYPE_REG ||| TYPE_VWORD ||| TYPE_IN]),
   (0xB4, [INS.LFS, TYPE_REG ||| TYPE_VWORD ||| TYPE_OUT, TYPE_MODMEM ||| TYPE_SEGP ||| TYPE_IN]),
   (0xB5, [INS.LGS, TYPE_REG ||| TYPE_VWORD ||| TYPE_OUT, TYPE_MODMEM ||| TYPE_SEGP ||| TYPE_IN]),
   (0xB6, [INS.MOVZX, TYPE_REG ||| TYPE_VWORD ||| TYPE_OUT ||| TYPE_80386, TYPE_MODRM ||| TYPE_BYTE ||| TYPE_IN]),
   (0xB7, [INS.MOVZX, TYPE_REG ||| TYPE_DWORD ||| TYPE_OUT ||| TYPE_80386, TYPE_MODRM ||| TYPE_WORD ||| TYPE_IN]),
   (0xBA, [INS.GRP8, TYPE_MODRM ||| TYPE_VWORD ||| TYPE_BOTH ||| TYPE_80386, TYPE_IMM ||| TYPE_BYTE ||| TYPE_IN]),
   (0xBB, [INS.BTC, TYPE_MODRM ||| TYPE_VWORD ||| TYPE_OUT ||| TYPE_80386, TYPE_REG ||| TYPE_VWORD ||| TYPE_IN]),
   (0xBC, [INS.BSF, TYPE_REG ||| TYPE_VWORD ||| TYPE_OUT ||| TYPE_80386, TYPE_MODRM ||| TYPE_VWORD ||| TYPE_IN]),
   (0xBD, [INS.BSR, TYPE_REG ||| TYPE_VWORD ||| TYPE_OUT ||| TYPE_80386, TYPE_MODRM ||| TYPE_VWORD ||| TYPE_IN]),
   (0xBE, [INS.MOVSX, TYPE_REG ||| TYPE_VWORD ||| TYPE_OUT ||| TYPE_80386, TYPE_MODRM ||| TYPE_BYTE ||| TYPE_IN]),
   (0xBF, [INS.MOVSX, TYPE_REG ||| TYPE_DWORD ||| TYPE_OUT ||| TYPE_80386, TYPE_MODRM ||| TYPE_WORD ||| TYPE_IN])
  ]

/-- Debugger.aaGrpDescs: the ModRM-extension group tables (the empty
list is the unused OP0F placeholder slot). -/
def aaGrpDescs : List (List OpDesc) :=
  [
   [
    -- GRP1B
   [INS.ADD, TYPE_MODRM ||| TYPE_BYTE ||| TYPE_BOTH, TYPE_IMM ||| TYPE_BYTE ||| TYPE_IN],
   [INS.OR, TYPE_MODRM ||| TYPE_BYTE ||| TYPE_BOTH, TYPE_IMM ||| TYPE_BYTE ||| TYPE_IN],
   [INS.ADC, TYPE_MODRM ||| TYPE_BYTE ||| TYPE_BOTH, TYPE_IMM ||| TYPE_BYTE ||| TYPE_IN],
   [INS.SBB, TYPE_MODRM ||| TYPE_BYTE ||| TYPE_BOTH, TYPE_IMM ||| TYPE_BYTE ||| TYPE_IN],
   [INS.AND, TYPE_MODRM ||| TYPE_BYTE ||| TYPE_BOTH, TYPE_IMM ||| TYPE_BYTE ||| TYPE_IN],
   [INS.SUB, TYPE_MODRM ||| TYPE_BYTE ||| TYPE_BOTH, TYPE_IMM ||| TYPE_BYTE ||| TYPE_IN],
   [INS.XOR, TYPE_MODRM ||| TYPE_BYTE ||| TYPE_BOTH, TYPE_IMM ||| TYPE_BYTE ||| TYPE_IN],
   [INS.CMP, TYPE_MODRM ||| TYPE_BYTE ||| TYPE_IN, TYPE_IMM ||| TYPE_BYTE ||| TYPE_IN]
   ],
   [
    -- GRP1W
   [INS.ADD, TYPE_MODRM ||| TYPE_VWORD ||| TYPE_BOTH, TYPE_IMM ||| TYPE_VWORD ||| TYPE_IN],
   [INS.OR, TYPE_MODRM ||| TYPE_VWORD ||| TYPE_BOTH, TYPE_IMM ||| TYPE_VWORD ||| TYPE_IN],
   [INS.ADC, TYPE_MODRM ||| TYPE_VWORD ||| TYPE_BOTH, TYPE_IMM ||| TYPE_VWORD ||| TYPE_IN],
   [INS.SBB, TYPE_MODRM ||| TYPE_VWORD ||| TYPE_BOTH, TYPE_IMM ||| TYPE_VWORD ||| TYPE_IN],
   [INS.AND, TYPE_MODRM ||| TYPE_VWORD ||| TYPE_BOTH, TYPE_IMM ||| TYPE_VWORD ||| TYPE_IN],
   [INS.SUB, TYPE_MODRM ||| TYPE_VWORD ||| TYPE_BOTH, TYPE_IMM ||| TYPE_VWORD ||| TYPE_IN],
   [INS.XOR, TYPE_MODRM ||| TYPE_VWORD ||| TYPE_BOTH, TYPE_IMM ||| TYPE_VWORD ||| TYPE_IN],
   [INS.CMP, TYPE_MODRM ||| TYPE_VWORD ||| TYPE_IN, TYPE_IMM ||| TYPE_VWORD ||| TYPE_IN]
   ],
   [
    -- GRP1SW
   [INS.ADD, TYPE_MODRM ||| TYPE_VWORD ||| TYPE_BOTH, TYPE_IMM ||| TYPE_SBYTE ||| TYPE_IN],
   [INS.OR, TYPE_MODRM ||| TYPE_VWORD ||| TYPE_BOTH, TYPE_IMM ||| TYPE_SBYTE ||| TYPE_IN],
   [INS.ADC, TYPE_MODRM ||| TYPE_VWORD ||| TYPE_BOTH, TYPE_IMM ||| TYPE_SBYTE ||| TYPE_IN],
   [INS.SBB, TYPE_MODRM ||| TYPE_VWORD ||| TYPE_BOTH, TYPE_IMM ||| TYPE_SBYTE ||| TYPE_IN],
   [INS.AND, TYPE_MODRM ||| TYPE_VWORD ||| TYPE_BOTH, TYPE_IMM ||| TYPE_SBYTE ||| TYPE_IN],
   [INS.SUB, TYPE_MODRM ||| TYPE_VWORD ||| TYPE_BOTH, TYPE_IMM ||| TYPE_SBYTE ||| TYPE_IN],
   [INS.XOR, TYPE_MODRM ||| TYPE_VWORD ||| TYPE_BOTH, TYPE_IMM ||| TYPE_SBYTE ||| TYPE_IN],
   [INS.CMP, TYPE_MODRM ||| TYPE_VWORD ||| TYPE_IN, TYPE_IMM ||| TYPE_SBYTE ||| TYPE_IN]
   ],
   [
    -- GRP2B
   [INS.ROL, TYPE_MODRM ||| TYPE_BYTE ||| TYPE_BOTH ||| TYPE_80286, TYPE_IMM ||| TYPE_BYTE ||| TYPE_IN],
   [INS.ROR, TYPE_MODRM ||| TYPE_BYTE ||| TYPE_BOTH ||| TYPE_80286, TYPE_IMM ||| TYPE_BYTE ||| TYPE_IN],
   [INS.RCL, TYPE_MODRM ||| TYPE_BYTE ||| TYPE_BOTH ||| TYPE_80286, TYPE_IMM ||| TYPE_BYTE ||| TYPE_IN],
   [INS.RCR, TYPE_MODRM ||| TYPE_BYTE ||| TYPE_BOTH ||| TYPE_80286, TYPE_IMM ||| TYPE_BYTE ||| TYPE_IN],
   [INS.SHL, TYPE_MODRM ||| TYPE_BYTE ||| TYPE_BOTH ||| TYPE_80286, TYPE_IMM ||| TYPE_BYTE ||| TYPE_IN],
   [INS.SHR, TYPE_MODRM ||| TYPE_BYTE ||| TYPE_BOTH ||| TYPE_80286, TYPE_IMM ||| TYPE_BYTE ||| TYPE_IN],
   aOpDescUndefined,
   [INS.SAR, TYPE_MODRM ||| TYPE_BYTE ||| TYPE_BOTH ||| TYPE_80286, TYPE_IMM ||| TYPE_BYTE ||| TYPE_IN]
   ],
   [
    -- GRP2W
   [INS.ROL, TYPE_MODRM ||| TYPE_VWORD ||| TYPE_BOTH ||| TYPE_80286, TYPE_IMM ||| TYPE_BYTE ||| TYPE_IN],
   [INS.ROR, TYPE_MODRM ||| TYPE_VWORD ||| TYPE_BOTH ||| TYPE_80286, TYPE_IMM ||| TYPE_BYTE ||| TYPE_IN],
   [INS.RCL, TYPE_MODRM ||| TYPE_VWORD ||| TYPE_BOTH ||| TYPE_80286, TYPE_IMM ||| TYPE_BYTE ||| TYPE_IN],
   [INS.RCR, TYPE_MODRM ||| TYPE_VWORD ||| TYPE_BOTH ||| TYPE_80286, TYPE_IMM ||| TYPE_BYTE ||| TYPE_IN],
   [INS.SHL, TYPE_MODRM ||| TYPE_VWORD ||| TYPE_BOTH ||| TYPE_80286, TYPE_IMM ||| TYPE_BYTE ||| TYPE_IN],
   [INS.SHR, TYPE_MODRM ||| TYPE_VWORD ||| TYPE_BOTH ||| TYPE_80286, TYPE_IMM ||| TYPE_BYTE ||| TYPE_IN],
   aOpDescUndefined,
   [INS.SAR, TYPE_MODRM ||| TYPE_VWORD ||| TYPE_BOTH ||| TYPE_80286, TYPE_IMM ||| TYPE_BYTE ||| TYPE_IN]
   ],
   [
    -- GRP2B1
   [INS.ROL, TYPE_MODRM ||| TYPE_BYTE ||| TYPE_BOTH, TYPE_ONE ||| TYPE_BYTE ||| TYPE_IN],
   [INS.ROR, TYPE_MODRM ||| TYPE_BYTE ||| TYPE_BOTH, TYPE_ONE ||| TYPE_BYTE ||| TYPE_IN],
   [INS.RCL, TYPE_MODRM ||| TYPE_BYTE ||| TYPE_BOTH, TYPE_ONE ||| TYPE_BYTE ||| TYPE_IN],
   [INS.RCR, TYPE_MODRM ||| TYPE_BYTE ||| TYPE_BOTH, TYPE_ONE ||| TYPE_BYTE ||| TYPE_IN],
   [INS.SHL, TYPE_MODRM ||| TYPE_BYTE ||| TYPE_BOTH, TYPE_ONE ||| TYPE_BYTE ||| TYPE_IN],
   [INS.SHR, TYPE_MODRM ||| TYPE_BYTE ||| TYPE_BOTH, TYPE_ONE ||| TYPE_BYTE ||| TYPE_IN],
   aOpDescUndefined,
   [INS.SAR, TYPE_MODRM ||| TYPE_BYTE ||| TYPE_BOTH, TYPE_ONE ||| TYPE_BYTE ||| TYPE_IN]
   ],
   [
    -- GRP2W1
   [INS.ROL, TYPE_MODRM ||| TYPE_VWORD ||| TYPE_BOTH, TYPE_ONE ||| TYPE_BYTE ||| TYPE_IN],
   [INS.ROR, TYPE_MODRM ||| TYPE_VWORD ||| TYPE_BOTH, TYPE_ONE ||| TYPE_BYTE ||| TYPE_IN],
   [INS.RCL, TYPE_MODRM ||| TYPE_VWORD ||| TYPE_BOTH, TYPE_ONE ||| TYPE_BYTE ||| TYPE_IN],
   [INS.RCR, TYPE_MODRM ||| TYPE_VWORD ||| TYPE_BOTH, TYPE_ONE ||| TYPE_BYTE ||| TYPE_IN],
   [INS.SHL, TYPE_MODRM ||| TYPE_VWORD ||| TYPE_BOTH, TYPE_ONE ||| TYPE_BYTE ||| TYPE_IN],
   [INS.SHR, TYPE_MODRM ||| TYPE_VWORD ||| TYPE_BOTH, TYPE_ONE ||| TYPE_BYTE ||| TYPE_IN],
   aOpDescUndefined,
   [INS.SAR, TYPE_MODRM ||| TYPE_VWORD ||| TYPE_BOTH, TYPE_ONE ||| TYPE_BYTE ||| TYPE_IN]
   ],
   [
    -- GRP2BC
   [INS.ROL, TYPE_MODRM ||| TYPE_BYTE ||| TYPE_BOTH, TYPE_IMPREG ||| TYPE_CL ||| TYPE_IN],
   [INS.ROR, TYPE_MODRM ||| TYPE_BYTE ||| TYPE_BOTH, TYPE_IMPREG ||| TYPE_CL ||| TYPE_IN],
   [INS.RCL, TYPE_MODRM ||| TYPE_BYTE ||| TYPE_BOTH, TYPE_IMPREG ||| TYPE_CL ||| TYPE_IN],
   [INS.RCR, TYPE_MODRM ||| TYPE_BYTE ||| TYPE_BOTH, TYPE_IMPREG ||| TYPE_CL ||| TYPE_IN],
   [INS.SHL, TYPE_MODRM ||| TYPE_BYTE ||| TYPE_BOTH, TYPE_IMPREG ||| TYPE_CL ||| TYPE_IN],
   [INS.SHR, TYPE_MODRM ||| TYPE_BYTE ||| TYPE_BOTH, TYPE_IMPREG ||| TYPE_CL ||| TYPE_IN],
   aOpDescUndefined,
   [INS.SAR, TYPE_MODRM ||| TYPE_BYTE ||| TYPE_BOTH, TYPE_IMPREG ||| TYPE_CL ||| TYPE_IN]
   ],
   [
    -- GRP2WC
   [INS.ROL, TYPE_MODRM ||| TYPE_VWORD ||| TYPE_BOTH, TYPE_IMPREG ||| TYPE_CL ||| TYPE_IN],
   [INS.ROR, TYPE_MODRM ||| TYPE_VWORD ||| TYPE_BOTH, TYPE_IMPREG ||| TYPE_CL ||| TYPE_IN],
   [INS.RCL, TYPE_MODRM ||| TYPE_VWORD ||| TYPE_BOTH, TYPE_IMPREG ||| TYPE_CL ||| TYPE_IN],
   [INS.RCR, TYPE_MODRM ||| TYPE_VWORD ||| TYPE_BOTH, TYPE_IMPREG ||| TYPE_CL ||| TYPE_IN],
   [INS.SHL, TYPE_MODRM ||| TYPE_VWORD ||| TYPE_BOTH, TYPE_IMPREG ||| TYPE_CL ||| TYPE_IN],
   [INS.SHR, TYPE_MODRM ||| TYPE_VWORD ||| TYPE_BOTH, TYPE_IMPREG ||| TYPE_CL ||| TYPE_IN],
   aOpDescUndefined,
   [INS.SAR, TYPE_MODRM ||| TYPE_VWORD ||| TYPE_BOTH, TYPE_IMPREG ||| TYPE_CL ||| TYPE_IN]
   ],
   [
    -- GRP3B
   [INS.TEST, TYPE_MODRM ||| TYPE_BYTE ||| TYPE_IN, TYPE_IMM ||| TYPE_BYTE ||| TYPE_IN],
   aOpDescUndefined,
   [INS.NOT, TYPE_MODRM ||| TYPE_BYTE ||| TYPE_BOTH],
   [INS.NEG, TYPE_MODRM ||| TYPE_BYTE ||| TYPE_BOTH],
   [INS.MUL, TYPE_MODRM ||| TYPE_BYTE ||| TYPE_IN],
   [INS.IMUL, TYPE_MODRM ||| TYPE_BYTE ||| TYPE_BOTH],
   [INS.DIV, TYPE_MODRM ||| TYPE_BYTE ||| TYPE_IN],
   [INS.IDIV, TYPE_MODRM ||| TYPE_BYTE ||| TYPE_BOTH]
   ],
   [
    -- GRP3W
   [INS.TEST, TYPE_MODRM ||| TYPE_VWORD ||| TYPE_IN, TYPE_IMM ||| TYPE_VWORD ||| TYPE_IN],
   aOpDescUndefined,
   [INS.NOT, TYPE_MODRM ||| TYPE_VWORD ||| TYPE_BOTH],
   [INS.NEG, TYPE_MODRM ||| TYPE_VWORD ||| TYPE_BOTH],
   [INS.MUL, TYPE_MODRM ||| TYPE_VWORD ||| TYPE_IN],
   [INS.IMUL, TYPE_MODRM ||| TYPE_VWORD ||| TYPE_BOTH],
   [INS.DIV, TYPE_MODRM ||| TYPE_VWORD ||| TYPE_IN],
   [INS.IDIV, TYPE_MODRM ||| TYPE_VWORD ||| TYPE_BOTH]
   ],
   [
    -- GRP4B
   [INS.INC, TYPE_MODRM ||| TYPE_BYTE ||| TYPE_BOTH],
   [INS.DEC, TYPE_MODRM ||| TYPE_BYTE ||| TYPE_BOTH],
   aOpDescUndefined,
   aOpDescUndefined,
   aOpDescUndefined,
   aOpDescUndefined,
   aOpDescUndefined,
   aOpDescUndefined
   ],
   [
    -- GRP4W
   [INS.INC, TYPE_MODRM ||| TYPE_VWORD ||| TYPE_BOTH],
   [INS.DEC, TYPE_MODRM ||| TYPE_VWORD ||| TYPE_BOTH],
   [INS.CALL, TYPE_MODRM ||| TYPE_VWORD ||| TYPE_IN],
   [INS.CALL, TYPE_MODRM ||| TYPE_FARP ||| TYPE_IN],
   [INS.JMP, TYPE_MODRM ||| TYPE_VWORD ||| TYPE_IN],
   [INS.JMP, TYPE_MODRM ||| TYPE_FARP ||| TYPE_IN],
   [INS.PUSH, TYPE_MODRM ||| TYPE_VWORD ||| TYPE_IN],
   aOpDescUndefined
   ],
   [],   -- OP0F placeholder
   [
    -- GRP6
   [INS.SLDT, TYPE_MODRM ||| TYPE_WORD ||| TYPE_OUT ||| TYPE_80286],
   [INS.STR, TYPE_MODRM ||| TYPE_WORD ||| TYPE_OUT ||| TYPE_80286],
   [INS.LLDT, TYPE_MODRM ||| TYPE_WORD ||| TYPE_IN ||| TYPE_80286],
   [INS.LTR, TYPE_MODRM ||| TYPE_WORD ||| TYPE_IN ||| TYPE_80286],
   [INS.VERR, TYPE_MODRM ||| TYPE_WORD ||| TYPE_IN ||| TYPE_80286],
   [INS.VERW, TYPE_MODRM ||| TYPE_WORD ||| TYPE_IN ||| TYPE_80286],
   aOpDescUndefined,
   aOpDescUndefined
   ],
   [
    -- GRP7
   [INS.SGDT, TYPE_MODRM ||| TYPE_WORD ||| TYPE_OUT ||| TYPE_80286],
   [INS.SIDT, TYPE_MODRM ||| TYPE_WORD ||| TYPE_OUT ||| TYPE_80286],
   [INS.LGDT, TYPE_MODRM ||| TYPE_WORD ||| TYPE_IN ||| TYPE_80286],
   [INS.LIDT, TYPE_MODRM ||| TYPE_WORD ||| TYPE_IN ||| TYPE_80286],
   [INS.SMSW, TYPE_MODRM ||| TYPE_WORD ||| TYPE_OUT ||| TYPE_80286],
   aOpDescUndefined,
   [INS.LMSW, TYPE_MODRM ||| TYPE_WORD ||| TYPE_IN ||| TYPE_80286],
   aOpDescUndefined
   ],
   [
    -- GRP8
   aOpDescUndefined,
   aOpDescUndefined,
   aOpDescUndefined,
   aOpDescUndefined,
   [INS.BT, TYPE_MODRM ||| TYPE_VWORD ||| TYPE_IN ||| TYPE_80386, TYPE_IMM ||| TYPE_BYTE ||| TYPE_IN],
   [INS.BTS, TYPE_MODRM ||| TYPE_VWORD ||| TYPE_OUT ||| TYPE_80386, TYPE_IMM ||| TYPE_BYTE ||| TYPE_IN],
   [INS.BTR, TYPE_MODRM ||| TYPE_VWORD ||| TYPE_OUT ||| TYPE_80386, TYPE_IMM ||| TYPE_BYTE ||| TYPE_IN],
   [INS.BTC, TYPE_MODRM ||| TYPE_VWORD ||| TYPE_OUT ||| TYPE_80386, TYPE_IMM ||| TYPE_BYTE ||| TYPE_IN]
   ]
  ]

/-! ## Instruction decoder -/

/-- Sparse lookup in the two-byte opcode table, as aaOp0FDescs[b]. -/
def aaOp0FDescsGet (b : Int) : Option OpDesc :=
  (aaOp0FDescsList.find? (fun p => p.1 == b)).map (fun p => p.2)

/-- The instance opcode table of initBus(): the static table describes the
8086; an 80186 replaces the 0x0F POP-CS entry by undefined, and an 80286 or
later by the two-byte escape. -/
def aaOpDescsFor (model : Int) : List OpDesc :=
  if model ≥ MODEL_80186 then
    if model ≥ MODEL_80286 then aaOpDescs.set 0x0F aOpDesc0F
    else aaOpDescs.set 0x0F aOpDescUndefined
  else aaOpDescs

/-- Uppercase hex digits. -/
def HEXDIGITS : List Char :=
  ['0', '1', '2', '3', '4', '5', '6', '7', '8', '9', 'A', 'B', 'C', 'D', 'E', 'F']

/-- Hex digit character of n mod 16. -/
def hexCharOf (n : Nat) : Char := HEXDIGITS.getD (n % 16) '0'

/-- Modelled from the spec: str.toHex(n, cch) (shared/lib/strlib.js, not
under src/): the low cch hex digits, uppercase and zero padded, of the
value taken as an unsigned 32-bit number; the display default is 8. -/
def strToHex (n : Int) (cch : Nat) : String :=
  let u := toUint32 n
  String.mk ((List.range cch).map (fun i => hexCharOf (u / 16 ^ (cch - 1 - i))))

/-- Modelled from the spec: str.pad(s, cch) (shared/lib/strlib.js, not
under src/): left-justify by appending spaces up to cch characters. -/
def strPad (s : String) (cch : Nat) : String :=
  s ++ String.mk (List.replicate (cch - s.length) ' ')

/-- hexOffset(off, sel, fAddr32). -/
def hexOffset (off : Int) (sel : Option Int) (fAddr32 : Bool) : String :=
  match sel with
  | some s =>
    strToHex s 4 ++ ":" ++
      strToHex off (if jsTruthy (jsAnd off (jsNot 0xffff)) || fAddr32 then 8 else 4)
  | none => strToHex off 8

/-- hexAddr(dbgAddr): a linear address prints as a percent-prefixed hex
value, a segmented one through hexOffset. -/
def hexAddr (d : DbgAddr) : String :=
  match d.sel with
  | none => "%" ++ strToHex (d.addr.getD 0) 8
  | some _ => hexOffset d.off d.sel d.fAddr32

/-- isStringIns(bOpcode). -/
def isStringIns (bOpcode : Int) : Bool :=
  (bOpcode ≥ OPCODE_MOVSB ∧ bOpcode ≤ OPCODE_CMPSW) ∨
  (bOpcode ≥ OPCODE_STOSB ∧ bOpcode ≤ OPCODE_SCASW)

/-- initAddrSize(dbgAddr, fNonPrefix, cOverrides): record the override
count; on a terminal (non-prefix) decode reset the operand and address
sizes to the code segment defaults; record completeness. -/
def initAddrSize (st : DbgState) (d : DbgAddr) (fNonPfx : Bool) (cOverrides : Nat) :
    DbgAddr :=
  let d := { d with cOverrides := some cOverrides }
  let d :=
    if fNonPfx then { d with fData32 := st.csDataSize32, fAddr32 := st.csAddrSize32 }
    else d
  { d with fComplete := some fNonPfx }

/-- getRegOperand(bReg, type, dbgAddr): adjust the register index by the
operand's mode and size, then name it through REGS (none models the
JavaScript null slots). -/
def getRegOperand (st : DbgState) (bReg : Nat) (ty : Nat) (d : DbgAddr) :
    Option String :=
  let typeMode := ty &&& TYPE_MODE
  if typeMode = TYPE_SEGREG then
    if bReg > REG_GS ∨ (bReg ≥ REG_FS ∧ st.cpuModel < MODEL_80386) then some "??"
    else REGS.getD (bReg + REG_SEG) none
  else if typeMode = TYPE_CTLREG then REGS.getD (bReg + REG_CR0) none
  else if typeMode = TYPE_DBGREG then REGS.getD (bReg + REG_DR0) none
  else if typeMode = TYPE_TSTREG then REGS.getD (bReg + REG_TR0) none
  else
    let typeSize := ty &&& TYPE_SIZE
    let bReg :=
      if typeSize ≥ TYPE_WORD then
        let b := if bReg < REG_AX then bReg + (REG_AX - REG_AL) else bReg
        if typeSize = TYPE_DWORD ∨ (typeSize = TYPE_VWORD ∧ d.fData32) then
          b + (REG_EAX - REG_AX)
        else b
      else bReg
    REGS.getD bReg none

/-- getSIBOperand(bMod, dbgAddr). -/
def getSIBOperand (st : DbgState) (bMod : Int) (d : DbgAddr) : String × DbgAddr :=
  let (bSIB, d) := getByte st d (some 1)
  let bScale := jsSar bSIB 6
  let bIndex := jsAnd (jsSar bSIB 3) 0x7
  let bBase := jsAnd bSIB 0x7
  let sOperand :=
    if jsTruthy bMod ∨ bBase ≠ 5 then RMS.getD (bBase.toNat + 8) "" else ""
  let sOperand :=
    if bIndex ≠ 4 then
      (if sOperand.length ≠ 0 then sOperand ++ "+" else sOperand) ++
        RMS.getD (bIndex.toNat + 8) "" ++
        (if jsTruthy bScale then "*" ++ toString (jsShl 1 bScale.toNat) else "")
    else sOperand
  if ¬jsTruthy bMod ∧ bBase = 5 then
    let (l, d) := getLong st d (some 4)
    ((if sOperand.length ≠ 0 then sOperand ++ "+" else sOperand) ++ strToHex l 8, d)
  else (sOperand, d)

/-- getImmOperand(type, dbgAddr).  The single-space default makes an
unhandled size class display as imm(...) only through the final branch;
a TYPE_BYTE immediate without in/out direction is suppressed (stays a
space, which is truthy in JavaScript). -/
def getImmOperand (st : DbgState) (ty : Nat) (d : DbgAddr) : String × DbgAddr :=
  let typeSize := ty &&& TYPE_SIZE
  if typeSize = TYPE_BYTE then
    if ty &&& TYPE_BOTH ≠ 0 then
      let (b, d) := getByte st d (some 1)
      (strToHex b 2, d)
    else (" ", d)
  else if typeSize = TYPE_SBYTE then
    let (b, d) := getByte st d (some 1)
    (strToHex (jsSar (jsShl b 24) 24) (if d.fData32 then 8 else 4), d)
  else if (typeSize = TYPE_VWORD ∨ typeSize = TYPE_2WORD) ∧ d.fData32 then
    let (l, d) := getLong st d (some 4)
    (strToHex l 8, d)
  else if typeSize = TYPE_VWORD ∨ typeSize = TYPE_2WORD ∨ typeSize = TYPE_WORD then
    let (w, d) := getShort st d (some 2)
    (strToHex w 4, d)
  else if typeSize = TYPE_FARP then
    let (o, d) := getWord st d true
    let (s, d) := getShort st d (some 2)
    (hexAddr (newAddr st (some o) (some s) none (some d.fProt) (some d.fData32)
      (some d.fAddr32)), d)
  else
    ("imm(" ++ strToHex ty 4 ++ ")", d)

/-- getModRMOperand(bModRM, type, cOperands, dbgAddr). -/
def getModRMOperand (st : DbgState) (bModRM : Int) (ty : Nat) (cOperands : Nat)
    (d : DbgAddr) : Option String × DbgAddr :=
  let bMod := jsSar bModRM 6
  let bRM := jsAnd bModRM 0x7
  if bMod < 3 then
    let (bMod, _bRM, sOperand, d) :=
      if ¬jsTruthy bMod ∧ ((¬d.fAddr32 ∧ bRM = 6) ∨ (d.fAddr32 ∧ bRM = 5)) then
        ((2 : Int), bRM, "", d)
      else
        let (bRM, sOperand, d) :=
          if d.fAddr32 then
            if bRM ≠ 4 then (bRM + 8, "", d)
            else
              let (s, d) := getSIBOperand st bMod d
              (bRM, s, d)
          else (bRM, "", d)
        let sOperand := if sOperand.length = 0 then RMS.getD bRM.toNat "" else sOperand
        (bMod, bRM, sOperand, d)
    let (sOperand, d) :=
      if bMod = 1 then
        let (disp, d) := getByte st d (some 1)
        if ¬jsTruthy (jsAnd disp 0x80) then
          (sOperand ++ "+" ++ strToHex disp 2, d)
        else
          let disp := jsSar (jsShl disp 24) 24
          (sOperand ++ "-" ++ strToHex (-disp) 2, d)
      else if bMod = 2 then
        let sOperand := if sOperand.length ≠ 0 then sOperand ++ "+" else sOperand
        if ¬d.fAddr32 then
          let (disp, d) := getShort st d (some 2)
          (sOperand ++ strToHex disp 4, d)
        else
          let (disp, d) := getLong st d (some 4)
          (sOperand ++ strToHex disp 8, d)
      else (sOperand, d)
    let sOperand := "[" ++ sOperand ++ "]"
    let sOperand :=
      if cOperands = 1 then
        let ty := ty &&& TYPE_SIZE
        let ty := if ty = TYPE_VWORD then (if d.fData32 then TYPE_DWORD else TYPE_WORD) else ty
        let sPfx :=
          if ty = TYPE_FARP then "FAR"
          else if ty = TYPE_BYTE then "BYTE"
          else if ty = TYPE_WORD then "WORD"
          else if ty = TYPE_DWORD then "DWORD"
          else ""
        if sPfx.length ≠ 0 then sPfx ++ " " ++ sOperand else sOperand
      else sOperand
    (some sOperand, d)
  else
    (getRegOperand st (jsAnd bModRM 0x7).toNat ty d, d)

/-- The operand-size and address-size prefix loop of getInstruction, with
its redundancy bound of 4 (the source's cMax countdown). -/
def pfxLoop (st : DbgState) : Nat → Int → DbgAddr → Bool → Bool →
    Int × DbgAddr × Bool × Bool
  | 0, bOpcode, d, fD, fA => (bOpcode, d, fD, fA)
  | cMax + 1, bOpcode, d, fD, fA =>
    if bOpcode = OPCODE_OS ∨ bOpcode = OPCODE_AS then
      let (d, fD, fA) :=
        if bOpcode = OPCODE_OS then
          if ¬fD then ({ d with fData32 := ¬d.fData32 }, true, fA) else (d, fD, fA)
        else
          if ¬fA then ({ d with fAddr32 := ¬d.fAddr32 }, fD, true) else (d, fD, fA)
      let (b, d) := getByte st d (some 1)
      pfxLoop st cMax b d fD fA
    else (bOpcode, d, fD, fA)

/-- One pass of the operand loop of getInstruction over the declared
operand types (the take over the descriptor tail mirrors the cOperands
bound, which isStringIns can reduce to 0).  Returns the updated address,
ModRM byte, operand text, non-prefix flag and CPU gate field. -/
def opLoop (st : DbgState) (cOperands : Nat) :
    List Nat → DbgAddr → Int → String → Bool → Option Nat →
    DbgAddr × Int × String × Bool × Option Nat
  | [], d, bModRM, sOperands, fNonPfx, typeCPU => (d, bModRM, sOperands, fNonPfx, typeCPU)
  | ty :: rest, d, bModRM, sOperands, fNonPfx, typeCPU =>
    let typeCPU := match typeCPU with
      | none => some (ty >>> TYPE_CPU_SHIFT)
      | some t => some t
    let typeSize := ty &&& TYPE_SIZE
    if typeSize = TYPE_NONE then
      opLoop st cOperands rest d bModRM sOperands fNonPfx typeCPU
    else if typeSize = TYPE_PFX then
      opLoop st cOperands rest d bModRM sOperands false typeCPU
    else
      let typeMode := ty &&& TYPE_MODE
      let (bModRM, d) :=
        if typeMode ≥ TYPE_MODRM ∧ bModRM < 0 then getByte st d (some 1)
        else (bModRM, d)
      let (sOperand, d) : Option String × DbgAddr :=
        if typeMode ≥ TYPE_MODRM then
          if typeMode < TYPE_MODREG then
            getModRMOperand st bModRM ty cOperands d
          else if typeMode = TYPE_MODREG then
            (getRegOperand st (jsAnd bModRM 0x7).toNat ty d, d)
          else
            (getRegOperand st (jsAnd (jsSar bModRM 3) 0x7).toNat ty d, d)
        else if typeMode = TYPE_ONE then (some "1", d)
        else if typeMode = TYPE_IMM then
          let (s, d) := getImmOperand st ty d
          (some s, d)
        else if typeMode = TYPE_IMMOFF then
          if ¬d.fAddr32 then
            let (o, d) := getShort st d (some 2)
            (some ("[" ++ strToHex o 4 ++ "]"), d)
          else
            let (o, d) := getLong st d (some 4)
            (some ("[" ++ strToHex o 8 ++ "]"), d)
        else if typeMode = TYPE_IMMREL then
          let (disp, d) :=
            if typeSize = TYPE_BYTE then
              let (b, d) := getByte st d (some 1)
              (jsSar (jsShl b 24) 24, d)
            else getWord st d true
          let offv := jsAnd (d.off + disp) (if d.fData32 then (-1) else 0xffff)
          let sHex := strToHex offv (if d.fData32 then 8 else 4)
          let s := match st.findSymbolName (newAddr st (some offv) d.sel none none none none) with
            | some sym => if sym.length ≠ 0 then sym else sHex
            | none => sHex
          (some s, d)
        else if typeMode = TYPE_IMPREG then
          (getRegOperand st ((ty &&& TYPE_IREG) >>> 8) ty d, d)
        else if typeMode = TYPE_IMPSEG then
          (getRegOperand st ((ty &&& TYPE_IREG) >>> 8) TYPE_SEGREG d, d)
        else if typeMode = TYPE_DSSI then (some "DS:[SI]", d)
        else if typeMode = TYPE_ESDI then (some "ES:[DI]", d)
        else (none, d)
      match sOperand with
      | none => (d, bModRM, "INVALID", fNonPfx, typeCPU)
      | some sOp =>
        if sOp.length = 0 then (d, bModRM, "INVALID", fNonPfx, typeCPU)
        else
          let sOperands := (if sOperands.length > 0 then sOperands ++ "," else sOperands) ++ sOp
          opLoop st cOperands rest d bModRM sOperands fNonPfx typeCPU

/-- The raw-byte re-read do-while loop of getInstruction (bounded by fuel;
the JavaScript loop runs until the two addresses coincide, which for an
actual decode happens within the instruction length). -/
def readBytesLoop (st : DbgState) : Nat → DbgAddr → Option Int → String →
    String × DbgAddr
  | 0, dIns, _, sBytes => (sBytes, dIns)
  | fuel + 1, dIns, target, sBytes =>
    let (b, dIns) := getByte st dIns (some 1)
    let sBytes := sBytes ++ strToHex b 2
    if dIns.addr ≠ target then readBytesLoop st fuel dIns target sBytes
    else (sBytes, dIns)

/-- getInstruction(dbgAddr, sComment, nSequence): decode one instruction at
dbgAddr, advancing it, and build the disassembly line. -/
def getInstruction (st : DbgState) (dbgAddr : DbgAddr) (sComment : Option String)
    (nSequence : Option Int) : String × DbgAddr :=
  let dbgAddrIns :=
    newAddr st (some dbgAddr.off) dbgAddr.sel dbgAddr.addr (some dbgAddr.fProt) none none
  let (bOpcode, d) := getByte st dbgAddr (some 1)
  let (bOpcode, d, fDataPfx, fAddrPfx) := pfxLoop st 4 bOpcode d false false
  let aOpDesc :=
    if 0 ≤ bOpcode ∧ bOpcode < 256 then
      (aaOpDescsFor st.cpuModel).getD bOpcode.toNat aOpDescUndefined
    else aOpDescUndefined
  let iIns := aOpDesc.headD 0
  let bModRM : Int := -1
  let (aOpDesc, bOpcode, iIns, d) :=
    if iIns = INS.OP0F then
      let (b, d) := getByte st d (some 1)
      let aOpDesc := (aaOp0FDescsGet b).getD aOpDescUndefined
      (aOpDesc, jsOr bOpcode (jsShl b 8), aOpDesc.headD 0, d)
    else (aOpDesc, bOpcode, iIns, d)
  let (aOpDesc, bModRM, d) :=
    if iIns ≥ INS_NAMES.length then
      let (b, d) := getByte st d (some 1)
      let grp := aaGrpDescs.getD (iIns - INS_NAMES.length) []
      (grp.getD (jsAnd (jsSar b 3) 0x7).toNat aOpDescUndefined, b, d)
    else (aOpDesc, bModRM, d)
  let sOpcode := INS_NAMES.getD (aOpDesc.headD 0) ""
  let cOperands := aOpDesc.length - 1
  let (sOpcode, cOperands) :=
    if isStringIns bOpcode then
      (if d.fData32 ∧ sOpcode.endsWith "W" then sOpcode.dropRight 1 ++ "D" else sOpcode, 0)
    else (sOpcode, cOperands)
  let (d, _, sOperands, fNonPfx, typeCPU) :=
    opLoop st cOperands (aOpDesc.tail.take cOperands) d bModRM "" true none
  let sLine := hexAddr dbgAddrIns ++ " "
  let sBytes :=
    if dbgAddrIns.addr ≠ some ADDR_INVALID ∧ d.addr ≠ some ADDR_INVALID then
      (readBytesLoop st 99 dbgAddrIns d.addr "").1
    else ""
  let sLine := sLine ++ strPad sBytes (if dbgAddrIns.fAddr32 then 24 else 16)
  let sLine := sLine ++ strPad sOpcode 8
  let sLine := if sOperands.length ≠ 0 then sLine ++ " " ++ sOperands else sLine
  let sComment :=
    match typeCPU with
    | some t =>
      if st.cpuModel < CPUS.getD t 0 then some (toString (CPUS.getD t 0) ++ " CPU only")
      else sComment
    | none => sComment
  let sLine :=
    match sComment with
    | some c =>
      if c.length ≠ 0 ∧ fNonPfx then
        let sLine := strPad sLine (if dbgAddrIns.fAddr32 then 74 else 56) ++ ";" ++ c
        if ¬st.fChecksum then
          sLine ++ (match nSequence with | some n => "=" ++ toString n | none => "")
        else
          sLine ++ "cycles=" ++ toString st.nCyclesVal ++ " cs=" ++ strToHex st.nChecksumVal 8
      else sLine
    | none => sLine
  let d := initAddrSize st d fNonPfx ((if fDataPfx then 1 else 0) + (if fAddrPfx then 1 else 0))
  (sLine, d)

/-! ## Concrete machine instances used by the theorems

A release-build real-mode machine over a 16Mb bus: no breakpoints, no
active message categories, every selector resolved to the usual real-mode
64Kb segment based at 16 times the selector. -/

def baseState : DbgState := {
  nSuppressBreaks := 0, bitsMessage := 0, maskAddr := 0xFFFFFF,
  aBreakExec := ⟨"exec", []⟩, aBreakRead := ⟨"read", []⟩, aBreakWrite := ⟨"write", []⟩,
  iOpcodeHistory := 0, aOpcodeHistory := [], aaOpcodeCounts := [],
  isDebugBuild := false, cpuModel := 8086, fProtMode := false,
  csDataSize32 := false, csAddrSize32 := false, fChecksum := false,
  nCyclesVal := 0, nChecksumVal := 0,
  probeAddr := fun _ => 0, liveSeg := fun _ => none,
  segDebugger := some (fun s _ => ⟨s * 16, 0x10000, 0xffff, 2, 2⟩),
  cpuRegValue := fun _ => "0", findSymbolName := fun _ => none }

/-- Memory holding the bytes B8 34 12 at linear 0x100 (NOP elsewhere). -/
def stMovAx : DbgState := { baseState with probeAddr := fun a =>
  if a = 0x100 then 0xB8 else if a = 0x101 then 0x34 else if a = 0x102 then 0x12 else 0x90 }

/-- The segmented address 0000:0100 with 16-bit operand and address sizes. -/
def dMovAx : DbgAddr :=
  newAddr stMovAx (some 0x100) (some 0) none (some false) (some false) (some false)

/-- A purely linear breakpoint entry at the given address. -/
def bpLin (a : Int) : DbgAddr :=
  { off := 0, sel := none, addr := some a, fProt := false, fTempBreak := false,
    fData32 := false, fAddr32 := false }

/-- A read-breakpoint collection holding one linear breakpoint at 0x1001. -/
def stRead1001 : DbgState := { baseState with aBreakRead := ⟨"read", [bpLin 0x1001]⟩ }

/-- A state with exactly one execution breakpoint and no message bits. -/
def stOneBp : DbgState := { baseState with aBreakExec := ⟨"exec", [bpLin 0x500]⟩ }

/-- The segmented address 0000:0000, whose linear address is 0. -/
def dZero : DbgAddr := newAddr baseState (some 0) (some 0) none (some false) none none

/-- The segmented address 0000:0100, whose linear address is 0x100. -/
def dHundred : DbgAddr := newAddr baseState (some 0x100) (some 0) none (some false) none none

/-- A segmented address whose offset exceeds the 64Kb real-mode segment
limit, so that linear resolution faults. -/
def dBeyond : DbgAddr := newAddr baseState (some 0x12345) (some 0) none (some false) none none

/-- The address 0040:0200 as a breakpoint key (first copy). -/
def dKey1 : DbgAddr := newAddr baseState (some 0x200) (some 0x40) none (some false) none none

/-- The address 0040:0200 as a breakpoint key (second, fresh copy). -/
def dKey2 : DbgAddr := newAddr baseState (some 0x200) (some 0x40) none (some false) none none

/-! ## Helper lemmas about the address unit -/

/-- getAddr only ever touches the addr cache of its address argument. -/
theorem getAddr_preserves (st : DbgState) (d : DbgAddr) (w : Bool) (nb : Option Nat) :
    (getAddr st d w nb).2.off = d.off ∧ (getAddr st d w nb).2.sel = d.sel ∧
    (getAddr st d w nb).2.fProt = d.fProt ∧
    (getAddr st d w nb).2.fTempBreak = d.fTempBreak := by
  unfold getAddr
  rcases d.addr with _ | a
  · rcases getSegment st d.sel (some d.fProt) with _ | seg <;> simp
  · simp

/-- Resolving an already-resolved (or unresolvable) address again returns
the same value and leaves the address unchanged. -/
theorem getAddr_idem (st : DbgState) (d : DbgAddr) (nb nb' : Option Nat) :
    getAddr st (getAddr st d false nb).2 false nb' =
      ((getAddr st d false nb).1, (getAddr st d false nb).2) := by
  unfold getAddr
  rcases hd : d.addr with _ | a
  · rcases hs : getSegment st d.sel (some d.fProt) with _ | seg
    · simp [hd, hs]
    · simp [hd, hs]
  · simp [hd]

/-! ## Support lemmas for the aliasing fold -/

/-- toUint32 on a value already in unsigned 32-bit range. -/
theorem toUint32_of_nonneg (a : Int) (h1 : 0 ≤ a) (h2 : a < 2 ^ 32) :
    toUint32 a = a.toNat := by
  unfold toUint32; omega

/-- toUint32 on a natural number below 2^32. -/
theorem toUint32_natCast (n : Nat) (h : n < 2 ^ 32) : toUint32 (n : Int) = n := by
  unfold toUint32; omega

/-- toInt32 on a natural number below 2^31. -/
theorem toInt32_small (u : Nat) (h : u < 2 ^ 31) : toInt32 (u : Int) = u := by
  unfold toInt32
  rw [toUint32_natCast u (by omega)]
  rw [if_pos h]

/-- jsAnd against a sub-2^31 mask is the natural-number AND of the
unsigned reinterpretation. -/
theorem jsAnd_as_nat (a mi : Int) (m : Nat) (hmv : toUint32 mi = m) (hm : m < 2 ^ 31) :
    jsAnd a mi = ((toUint32 a &&& m : Nat) : Int) := by
  unfold jsAnd
  rw [hmv]
  exact toInt32_small _ (lt_of_le_of_lt Nat.and_le_right hm)

/-- Folding into the low 20 bits twice is the same as folding once. -/
theorem jsAnd_fffff_idem (a : Int) :
    jsAnd (jsAnd a 0xfffff) 0xfffff = jsAnd a 0xfffff := by
  have h1 : jsAnd a 0xfffff = ((toUint32 a &&& 0xfffff : Nat) : Int) :=
    jsAnd_as_nat a 0xfffff 0xfffff (by decide) (by norm_num)
  rw [h1, jsAnd_as_nat _ 0xfffff 0xfffff (by decide) (by norm_num)]
  rw [toUint32_natCast _ (lt_of_le_of_lt Nat.and_le_right (by norm_num))]
  rw [Nat.land_assoc]
  norm_num

/-- The low-20-bit fold is nonnegative. -/
theorem jsAnd_fffff_nonneg (a : Int) : 0 ≤ jsAnd a 0xfffff := by
  rw [jsAnd_as_nat a 0xfffff 0xfffff (by decide) (by norm_num)]
  exact Int.ofNat_nonneg _

/-! ## The claims -/

/-- Claim C1: decoding the byte sequence B8 34 12 at segmented address
0:0100 with 16-bit operand size via getInstruction produces the mnemonic
MOV with operand text AX,1234 and advances the input address by exactly
3 bytes (offset 0x100 to 0x103, cached linear address 0x103). -/
theorem claim_C1_decode_mov_ax_imm :
    (getInstruction stMovAx dMovAx none none).1 =
      "0000:0100 B83412          MOV      AX,1234" ∧
    (getInstruction stMovAx dMovAx none none).2.off = dMovAx.off + 3 ∧
    (getInstruction stMovAx dMovAx none none).2.addr = some 0x103 :=
  ⟨rfl, rfl, rfl⟩

/-- Claim C2 (code bug): with a single read breakpoint whose linear address
0x1001 lies inside the accessed range [0x1000, 0x1000 + 2), checkBreakpoint
returns false.  The inner loop of the source increments its index twice per
iteration (once in the loop header, once in the body next to addrBreak), so
only the first half of the byte range is ever compared; a one-byte access
at the breakpoint address itself still matches. -/
theorem claim_C2_range_scan_bug :
    stRead1001.aBreakRead.entries = [bpLin 0x1001] ∧
    mapBreakpoint stRead1001 0x1001 = 0x1001 ∧
    ((0x1000 : Int) ≤ 0x1001 ∧ (0x1001 : Int) < 0x1000 + 2) ∧
    (checkBreakpoint stRead1001 0x1000 2 BPK.read false).1 = false ∧
    (checkBreakpoint stRead1001 0x1001 2 BPK.read false).1 = true := by
  decide

/-- Claim C3 counterexample: in a release build with exactly one execution
breakpoint and the interrupt message category inactive, checksEnabled
already returns true, because the source tests aBreakExec.length > 1 and
slot 0 of the collection is its tag, not a breakpoint. -/
theorem claim_C3_counterexample :
    checksEnabled stOneBp false = true ∧
    stOneBp.aBreakExec.entries.length = 1 ∧
    messageEnabled stOneBp MESSAGES_INT = false ∧
    stOneBp.isDebugBuild = false := by
  decide

/-- Claim C3 (amended): in a release build, checksEnabled returns true
exactly when at least one execution breakpoint exists or the interrupt
message category is active, and historyInit leaves the history and
opcode-count buffers allocated exactly under that condition (deallocating
them otherwise). -/
theorem claim_C3_checks_gate_history (st : DbgState) (fRelease : Bool)
    (h : st.isDebugBuild = false) :
    (checksEnabled st fRelease =
      (decide (1 ≤ st.aBreakExec.entries.length) || messageEnabled st MESSAGES_INT)) ∧
    (checksEnabled st false = true →
      (historyInit st).aOpcodeHistory.length ≠ 0 ∧
      (historyInit st).aaOpcodeCounts.length ≠ 0) ∧
    (checksEnabled st false = false →
      (historyInit st).aOpcodeHistory = [] ∧ (historyInit st).aaOpcodeCounts = []) := by
  have hc : ∀ fR : Bool, checksEnabled st fR =
      (decide (1 ≤ st.aBreakExec.entries.length) || messageEnabled st MESSAGES_INT) := by
    intro fR
    unfold checksEnabled
    rw [h]
    simp only [Bool.false_and, Bool.false_eq_true, if_false, BreakList.jsLength]
    congr 1
    exact decide_eq_decide.mpr (by omega)
  refine ⟨hc fRelease, ?_, ?_⟩
  · intro he
    unfold historyInit
    rw [if_neg (by simp [he])]
    by_cases h0 : st.aOpcodeHistory.length = 0
    · rw [if_pos h0]
      dsimp only
      by_cases h1 : st.aaOpcodeCounts.length = 0
      · rw [if_pos h1]
        refine ⟨?_, ?_⟩
        · dsimp only
          rw [List.length_replicate]
          unfold HISTORY_LIMIT
          norm_num
        · dsimp only
          rw [List.length_map, List.length_range]
          norm_num
      · rw [if_neg h1]
        refine ⟨?_, h1⟩
        dsimp only
        rw [List.length_replicate]
        unfold HISTORY_LIMIT
        norm_num
    · rw [if_neg h0]
      by_cases h1 : st.aaOpcodeCounts.length = 0
      · rw [if_pos h1]
        refine ⟨h0, ?_⟩
        dsimp only
        rw [List.length_map, List.length_range]
        norm_num
      · rw [if_neg h1]
        exact ⟨h0, h1⟩
  · intro he
    unfold historyInit
    rw [if_pos (by simp [he])]
    exact ⟨rfl, rfl⟩

/-- Claim C3 witness: the amended statement evaluated on the concrete
one-breakpoint release-build state. -/
theorem claim_C3_checks_gate_history_witness :
    (checksEnabled stOneBp false =
      (decide (1 ≤ stOneBp.aBreakExec.entries.length) ||
        messageEnabled stOneBp MESSAGES_INT)) ∧
    (checksEnabled stOneBp false = true →
      (historyInit stOneBp).aOpcodeHistory.length ≠ 0 ∧
      (historyInit stOneBp).aaOpcodeCounts.length ≠ 0) ∧
    (checksEnabled stOneBp false = false →
      (historyInit stOneBp).aOpcodeHistory = [] ∧
      (historyInit stOneBp).aaOpcodeCounts = []) :=
  claim_C3_checks_gate_history stOneBp false (by decide)

/-- Claim C4 counterexample: a temporary breakpoint at 0000:0000 resolves
to linear address 0, which is falsy in JavaScript, so the stored entry
keeps its selector instead of having it cleared. -/
theorem claim_C4_counterexample :
    (addBreakpoint baseState BPK.exec dZero true).1 = true ∧
    ((addBreakpoint baseState BPK.exec dZero true).2.aBreakExec.entries.map
      DbgAddr.sel) = [some 0] := by
  decide

/-- Claim C4 (amended): when a temporary execution breakpoint is added
without a duplicate and its resolved linear-address cache is truthy
(present and nonzero), the stored entry has its selector cleared. -/
theorem claim_C4_temp_clears_sel (st0 : DbgState) (d : DbgAddr)
    (hnf : (findBreakpoint { st0 with nSuppressBreaks := st0.nSuppressBreaks + 1 }
      BPK.exec d false).1 = false)
    (htr : jsTruthyOpt (findBreakpoint { st0 with nSuppressBreaks := st0.nSuppressBreaks + 1 }
      BPK.exec d false).2.1.addr = true) :
    (addBreakpoint st0 BPK.exec d true).1 = true ∧
    ((addBreakpoint st0 BPK.exec d true).2.aBreakExec.entries.getLast?.map
      DbgAddr.sel) = some none := by
  unfold addBreakpoint
  rcases hfb : findBreakpoint { st0 with nSuppressBreaks := st0.nSuppressBreaks + 1 }
      BPK.exec d false with ⟨found, d1, st1⟩
  rw [hfb] at hnf htr
  simp only at hnf htr
  simp only [hfb, hnf]
  simp [DbgState.setBreakEntries, DbgState.setBreak, DbgState.getBreak, htr,
    List.getLast?_concat]

/-- Claim C4 witness: a temporary breakpoint at 0000:0100 (linear 0x100,
truthy) does get its selector cleared. -/
theorem claim_C4_temp_clears_sel_witness :
    (addBreakpoint baseState BPK.exec dHundred true).1 = true ∧
    ((addBreakpoint baseState BPK.exec dHundred true).2.aBreakExec.entries.getLast?.map
      DbgAddr.sel) = some none :=
  claim_C4_temp_clears_sel baseState dHundred (by decide) (by decide)

/-- Claim C5: the alias fold mapBreakpoint is idempotent for every state
and every address (the invalid sentinel included); on the 16Mb bus every
in-range address below the top-64Kb region is returned unchanged; and
0xFFFF0000 folds to 0x000F0000. -/
theorem claim_C5_alias_fold :
    (∀ (st : DbgState) (a : Int),
      mapBreakpoint st (mapBreakpoint st a) = mapBreakpoint st a) ∧
    (∀ a : Int, 0 ≤ a → a < 0xFF0000 → mapBreakpoint baseState a = a) ∧
    mapBreakpoint baseState 0xFFFF0000 = 0x000F0000 := by
  refine ⟨?_, ?_, by decide⟩
  · intro st a
    by_cases h1 : a = ADDR_INVALID
    · simp [mapBreakpoint, h1]
    · by_cases h2 : jsAnd a (jsAnd st.maskAddr (jsNot 0xffff)) =
          jsAnd st.maskAddr (jsNot 0xffff)
      · have hr : mapBreakpoint st a = jsAnd a 0xfffff := by
          simp [mapBreakpoint, h1, h2]
        rw [hr]
        have hne : jsAnd a 0xfffff ≠ ADDR_INVALID := by
          have := jsAnd_fffff_nonneg a
          unfold ADDR_INVALID
          omega
        by_cases h3 : jsAnd (jsAnd a 0xfffff) (jsAnd st.maskAddr (jsNot 0xffff)) =
            jsAnd st.maskAddr (jsNot 0xffff)
        · simp [mapBreakpoint, hne, h3, jsAnd_fffff_idem]
        · simp [mapBreakpoint, hne, h3]
      · simp [mapBreakpoint, h1, h2]
  · intro a h0 hlt
    have h1 : a ≠ ADDR_INVALID := by unfold ADDR_INVALID; omega
    have hmask : jsAnd baseState.maskAddr (jsNot 0xffff) = (0xFF0000 : Int) := by decide
    have hcond : jsAnd a 0xFF0000 ≠ (0xFF0000 : Int) := by
      rw [jsAnd_as_nat a 0xFF0000 0xFF0000 (by decide) (by norm_num)]
      intro hcontra
      have hn : toUint32 a &&& 0xFF0000 = 0xFF0000 := by exact_mod_cast hcontra
      have hle : toUint32 a &&& 0xFF0000 ≤ toUint32 a := Nat.and_le_left
      have hu : toUint32 a = a.toNat := toUint32_of_nonneg a h0 (by omega)
      omega
    unfold mapBreakpoint
    rw [hmask]
    simp [h1, hcond]

/-- Claim C5 witness: the idempotence instantiated at the folded address
0xFFFF0000 and the below-threshold preservation at 0x1234. -/
theorem claim_C5_alias_fold_witness :
    mapBreakpoint baseState (mapBreakpoint baseState 0xFFFF0000) =
      mapBreakpoint baseState 0xFFFF0000 ∧
    mapBreakpoint baseState 0x1234 = 0x1234 :=
  ⟨claim_C5_alias_fold.1 baseState 0xFFFF0000,
   claim_C5_alias_fold.2.1 0x1234 (by decide) (by decide)⟩

/-- Claim C6 (code bug): a division by zero whose reduction happens during
the scan (triggered by a lower-precedence incoming operator) is silently
discarded, because parseExpression ignores the boolean result of the
reduce-one evalExpression call; the expression 8/0-5&3 then evaluates to 1
instead of failing.  A division or remainder by zero reduced in the final
pass does fail the whole expression. -/
theorem claim_C6_div_zero_partial_result :
    parseExpression baseState "8/0-5&3" false = some 1 ∧
    parseExpression baseState "1/0" false = none ∧
    parseExpression baseState "5%0" false = none :=
  ⟨rfl, rfl, rfl⟩

/-- Claim C7 counterexample: operators of equal precedence are not applied
left-to-right: 8-4-2 evaluates to 6 (right-to-left, (8-(4-2))), not 2, and
a deferred higher-precedence operator can absorb a later lower-precedence
result: 2*3*4+5 evaluates to 34 (2*(3*4+5)), not 29. -/
theorem claim_C7_counterexample :
    parseExpression baseState "8-4-2" false = some 6 ∧
    parseExpression baseState "2*3*4+5" false = some 34 :=
  ⟨rfl, rfl⟩

/-- Claim C7 (amended): the two-stack evaluator reduces one pending
operation when an incoming operator has strictly lower precedence than the
stack top and applies the remaining operations right-to-left at the end;
4+4*2 evaluates to 12 as claimed, while equal-precedence chains associate
right-to-left (8-4-2 = 6) and deferred operators can violate precedence
(2*3*4+5 = 34). -/
theorem claim_C7_precedence :
    parseExpression baseState "4+4*2" false = some 12 ∧
    parseExpression baseState "8-4-2" false = some 6 ∧
    parseExpression baseState "2*3*4+5" false = some 34 :=
  ⟨rfl, rfl, rfl⟩

/-- Claim C9: when linear resolution fails, getByte returns 0xFF, getShort
returns 0xFFFF, and getLong returns the all-ones 32-bit value (-1 in the
signed convention of the JavaScript bitwise operators, i.e. 0xFFFFFFFF as
an unsigned 32-bit number), with no exception raised. -/
theorem claim_C9_invalid_read_sentinels (st : DbgState) (d : DbgAddr) (inc : Option Int) :
    ((getAddr st d false (some 1)).1 = ADDR_INVALID → (getByte st d inc).1 = 0xff) ∧
    ((getAddr st d false (some 2)).1 = ADDR_INVALID → (getShort st d inc).1 = 0xffff) ∧
    ((getAddr st d false (some 4)).1 = ADDR_INVALID →
      toUint32 (getLong st d inc).1 = 0xffffffff) := by
  refine ⟨?_, ?_, ?_⟩ <;> intro h
  · unfold getByte
    rcases hg : getAddr st d false (some 1) with ⟨a, d2⟩
    rw [hg] at h
    simp only at h
    simp [h]
  · unfold getShort
    rcases hg : getAddr st d false (some 2) with ⟨a, d2⟩
    rw [hg] at h
    simp only at h
    simp [h]
  · unfold getLong
    rcases hg : getAddr st d false (some 4) with ⟨a, d2⟩
    rw [hg] at h
    simp only at h
    simp only [h, ne_eq, not_true_eq_false, reduceIte]
    decide

/-- Claim C9 witness: the three sentinels on an out-of-limit offset. -/
theorem claim_C9_invalid_read_sentinels_witness :
    (getByte baseState dBeyond (some 1)).1 = 0xff ∧
    (getShort baseState dBeyond (some 2)).1 = 0xffff ∧
    toUint32 (getLong baseState dBeyond (some 4)).1 = 0xffffffff :=
  ⟨(claim_C9_invalid_read_sentinels baseState dBeyond (some 1)).1 (by decide),
   (claim_C9_invalid_read_sentinels baseState dBeyond (some 2)).2.1 (by decide),
   (claim_C9_invalid_read_sentinels baseState dBeyond (some 4)).2.2 (by decide)⟩

/-- Claim C10 counterexample: a failed getByte does leave offset and
selector alone, but it writes the invalid sentinel into the previously
empty linear-address cache of the argument, so the cached linear address
is not the same after the call. -/
theorem claim_C10_counterexample :
    dBeyond.addr = none ∧
    (getByte baseState dBeyond (some 1)).2.addr = some ADDR_INVALID ∧
    (getByte baseState dBeyond (some 1)).1 = 0xff := by
  decide

/-- Claim C10 (amended): when a read fails to resolve, the address is not
advanced: offset and selector are unchanged after getByte, getShort and
getLong even when an increment was requested (the linear-address cache,
however, may be filled with the invalid sentinel). -/
theorem claim_C10_failed_reads_no_advance (st : DbgState) (d : DbgAddr) (inc : Option Int) :
    ((getAddr st d false (some 1)).1 = ADDR_INVALID →
      (getByte st d inc).2.off = d.off ∧ (getByte st d inc).2.sel = d.sel) ∧
    ((getAddr st d false (some 2)).1 = ADDR_INVALID →
      (getShort st d inc).2.off = d.off ∧ (getShort st d inc).2.sel = d.sel) ∧
    ((getAddr st d false (some 4)).1 = ADDR_INVALID →
      (getLong st d inc).2.off = d.off ∧ (getLong st d inc).2.sel = d.sel) := by
  refine ⟨?_, ?_, ?_⟩ <;> intro h
  · have hp := getAddr_preserves st d false (some 1)
    unfold getByte
    rcases hg : getAddr st d false (some 1) with ⟨a, d2⟩
    rw [hg] at h hp
    simp only at h hp
    simp [h, hp.1, hp.2.1]
  · have hp := getAddr_preserves st d false (some 2)
    unfold getShort
    rcases hg : getAddr st d false (some 2) with ⟨a, d2⟩
    rw [hg] at h hp
    simp only at h hp
    simp [h, hp.1, hp.2.1]
  · have hp := getAddr_preserves st d false (some 4)
    unfold getLong
    rcases hg : getAddr st d false (some 4) with ⟨a, d2⟩
    rw [hg] at h hp
    simp only at h hp
    simp [h, hp.1, hp.2.1]

/-- Claim C10 witness: on the out-of-limit offset the failed reads leave
offset and selector unchanged. -/
theorem claim_C10_failed_reads_no_advance_witness :
    (getByte baseState dBeyond (some 1)).2.off = dBeyond.off ∧
    (getByte baseState dBeyond (some 1)).2.sel = dBeyond.sel :=
  (claim_C10_failed_reads_no_advance baseState dBeyond (some 1)).1 (by decide)

/-! ## Support lemmas for breakpoint deduplication -/

/-- The state fields read by address resolution and the aliasing fold. -/
def resolutionEnvEq (s t : DbgState) : Prop :=
  s.fProtMode = t.fProtMode ∧ s.liveSeg = t.liveSeg ∧ s.segDebugger = t.segDebugger ∧
  s.nSuppressBreaks = t.nSuppressBreaks ∧ s.maskAddr = t.maskAddr

/-- Two states agreeing on the resolution environment resolve segments
identically. -/
theorem getSegment_congr {s t : DbgState} (h : resolutionEnvEq s t)
    (sel : Option Int) (fp : Option Bool) : getSegment s sel fp = getSegment t sel fp := by
  obtain ⟨h1, h2, h3, h4, h5⟩ := h
  unfold getSegment
  rw [h1, h2, h3, h4]

/-- Two states agreeing on the resolution environment resolve addresses
identically. -/
theorem getAddr_congr {s t : DbgState} (h : resolutionEnvEq s t)
    (d : DbgAddr) (w : Bool) (nb : Option Nat) : getAddr s d w nb = getAddr t d w nb := by
  unfold getAddr
  rw [getSegment_congr h]

/-- Two states agreeing on the resolution environment fold addresses
identically. -/
theorem mapBreakpoint_congr {s t : DbgState} (h : resolutionEnvEq s t)
    (a : Int) : mapBreakpoint s a = mapBreakpoint t a := by
  unfold mapBreakpoint
  rw [h.2.2.2.2]

/-- A resolved entry resolves to the same value, unchanged, in any state
with the same resolution environment. -/
theorem getAddr_stable {s t : DbgState} (h : resolutionEnvEq s t) (d : DbgAddr)
    (nb nb' : Option Nat) :
    getAddr t (getAddr s d false nb).2 false nb' =
      ((getAddr s d false nb).1, (getAddr s d false nb).2) := by
  rw [(getAddr_congr h (getAddr s d false nb).2 false nb').symm]
  exact getAddr_idem s d nb nb'

/-- Two never-resolved addresses with the same selector, offset and
protection mode resolve to the same linear address. -/
theorem getAddr_fst_key {s t : DbgState} (h : resolutionEnvEq s t) (d1 d2 : DbgAddr)
    (h1a : d1.addr = none) (h2a : d2.addr = none) (hsel : d2.sel = d1.sel)
    (hoff : d2.off = d1.off) (hprot : d2.fProt = d1.fProt) (nb : Option Nat) :
    (getAddr s d2 false nb).1 = (getAddr t d1 false nb).1 := by
  unfold getAddr
  rw [h1a, h2a, hsel, hoff, hprot, getSegment_congr h]
  rcases getSegment t d1.sel (some d1.fProt) with _ | seg <;> simp

/-- The condition of one scan step. -/
def bpMatch (st : DbgState) (A : Int) (dSel : Option Int) (dOff : Int) (e : DbgAddr) : Prop :=
  (A ≠ ADDR_INVALID ∧ A = mapBreakpoint st (getAddr st e false none).1) ∨
  (A = ADDR_INVALID ∧ dSel = (getAddr st e false none).2.sel ∧
    dOff = (getAddr st e false none).2.off)

instance (st : DbgState) (A : Int) (dSel : Option Int) (dOff : Int) (e : DbgAddr) :
    Decidable (bpMatch st A dSel dOff e) := by
  unfold bpMatch
  infer_instance

/-- Equation lemma for one non-removing scan step. -/
theorem findBPScan_cons (st : DbgState) (A : Int) (dSel : Option Int) (dOff : Int)
    (e : DbgAddr) (rest : List DbgAddr) :
    findBPScan st A dSel dOff false (e :: rest) =
      (if bpMatch st A dSel dOff e
       then (true, false, (getAddr st e false none).2 :: rest)
       else ((findBPScan st A dSel dOff false rest).1,
             (findBPScan st A dSel dOff false rest).2.1,
             (getAddr st e false none).2 :: (findBPScan st A dSel dOff false rest).2.2)) := rfl

/-- With fRemove false the scan never reports a removal. -/
theorem findBPScan_no_remove (st : DbgState) (A : Int) (dSel : Option Int) (dOff : Int) :
    ∀ L, (findBPScan st A dSel dOff false L).2.1 = false := by
  intro L
  induction L with
  | nil => rfl
  | cons e rest ih =>
    rw [findBPScan_cons]
    split
    · rfl
    · exact ih

/-- An entry that has been through one scan step matches for a second
state with the same resolution environment exactly as it matched before,
and a second resolution does not change it. -/
theorem bpMatch_stable {s t : DbgState} (h : resolutionEnvEq s t)
    (A : Int) (dSel : Option Int) (dOff : Int) (e : DbgAddr) :
    (bpMatch t A dSel dOff (getAddr s e false none).2 ↔ bpMatch s A dSel dOff e) ∧
    (getAddr t (getAddr s e false none).2 false none).2 = (getAddr s e false none).2 := by
  have hstab := getAddr_stable h e none none
  constructor
  · unfold bpMatch
    rw [hstab]
    dsimp only
    rw [mapBreakpoint_congr h]
  · rw [hstab]

/-- Rescanning the output of a non-removing scan, in any state with the
same resolution environment, reproduces the same verdict and leaves the
entries untouched. -/
theorem findBPScan_rescan {s t : DbgState} (h : resolutionEnvEq s t)
    (A : Int) (dSel : Option Int) (dOff : Int) :
    ∀ (L : List DbgAddr) (f : Bool) (L' : List DbgAddr),
      findBPScan s A dSel dOff false L = (f, false, L') →
      findBPScan t A dSel dOff false L' = (f, false, L') := by
  intro L
  induction L with
  | nil =>
    intro f L' hscan
    have hf : false = f := congrArg Prod.fst hscan
    have hl : ([] : List DbgAddr) = L' := congrArg (fun p => p.2.2) hscan
    subst hf hl
    rfl
  | cons e rest ih =>
    intro f L' hscan
    rw [findBPScan_cons] at hscan
    by_cases hc : bpMatch s A dSel dOff e
    · rw [if_pos hc] at hscan
      have hf : true = f := congrArg Prod.fst hscan
      have hl : (getAddr s e false none).2 :: rest = L' := congrArg (fun p => p.2.2) hscan
      subst hf hl
      rw [findBPScan_cons,
        if_pos (((bpMatch_stable h A dSel dOff e).1).mpr hc),
        (bpMatch_stable h A dSel dOff e).2]
    · rw [if_neg hc] at hscan
      have hf : (findBPScan s A dSel dOff false rest).1 = f := congrArg Prod.fst hscan
      have hl : (getAddr s e false none).2 :: (findBPScan s A dSel dOff false rest).2.2 = L' :=
        congrArg (fun p => p.2.2) hscan
      subst hf hl
      rw [findBPScan_cons,
        if_neg (fun hx => hc (((bpMatch_stable h A dSel dOff e).1).mp hx)),
        (bpMatch_stable h A dSel dOff e).2]
      have hrec := ih (findBPScan s A dSel dOff false rest).1
        (findBPScan s A dSel dOff false rest).2.2
        (by
          rcases hr : findBPScan s A dSel dOff false rest with ⟨f2, r2, rest2⟩
          have hnr := findBPScan_no_remove s A dSel dOff rest
          rw [hr] at hnr
          have h2 : r2 = false := hnr
          rw [h2])
      rw [hrec]

/-- Scanning past a self-stable non-matching prefix continues into the
suffix. -/
theorem findBPScan_append (t : DbgState) (A : Int) (dSel : Option Int) (dOff : Int) :
    ∀ (L M : List DbgAddr),
      findBPScan t A dSel dOff false L = (false, false, L) →
      findBPScan t A dSel dOff false (L ++ M) =
        ((findBPScan t A dSel dOff false M).1,
          (findBPScan t A dSel dOff false M).2.1,
          L ++ (findBPScan t A dSel dOff false M).2.2) := by
  intro L
  induction L with
  | nil =>
    intro M _
    simp
  | cons e rest ih =>
    intro M hL
    rw [findBPScan_cons] at hL
    by_cases hc : bpMatch t A dSel dOff e
    · rw [if_pos hc] at hL
      exact absurd (congrArg Prod.fst hL) (by simp)
    · rw [if_neg hc] at hL
      have he : (getAddr t e false none).2 = e := by
        have := congrArg (fun p => p.2.2) hL
        exact (List.cons.injEq _ _ _ _ ▸ this).1
      have hrest : (findBPScan t A dSel dOff false rest).2.2 = rest := by
        have := congrArg (fun p => p.2.2) hL
        exact (List.cons.injEq _ _ _ _ ▸ this).2
      have hf : (findBPScan t A dSel dOff false rest).1 = false := congrArg Prod.fst hL
      rw [List.cons_append, findBPScan_cons, if_neg hc, he,
        ih M (by
          rcases hr : findBPScan t A dSel dOff false rest with ⟨f2, r2, rest2⟩
          have hnr := findBPScan_no_remove t A dSel dOff rest
          rw [hr] at hnr hf hrest
          have h1 : f2 = false := hf
          have h2 : r2 = false := hnr
          have h3 : rest2 = rest := hrest
          rw [h1, h2, h3])]
      rfl

/-- A single stored entry that resolves (without changing) to the probe
address, with matching selector and offset, is found by the scan. -/
theorem findBPScan_single_match (t : DbgState) (A : Int) (dSel : Option Int) (dOff : Int)
    (p : DbgAddr) (a : Int)
    (hg : getAddr t p false none = (a, p))
    (hmap : mapBreakpoint t a = A)
    (hsel : dSel = p.sel) (hoff : dOff = p.off) :
    findBPScan t A dSel dOff false [p] = (true, false, [p]) := by
  rw [findBPScan_cons, if_pos ?_, hg]
  unfold bpMatch
  rw [hg]
  by_cases hA : A = ADDR_INVALID
  · exact Or.inr ⟨hA, hsel, hoff⟩
  · exact Or.inl ⟨hA, hmap.symm⟩

/-- setBreakEntries only touches the selected collection. -/
theorem setBreakEntries_env (st : DbgState) (k : BPK) (es : List DbgAddr) :
    resolutionEnvEq (st.setBreakEntries k es) st := by
  cases k <;> exact ⟨rfl, rfl, rfl, rfl, rfl⟩

/-- Reading back the collection written by setBreakEntries. -/
theorem getBreak_setBreakEntries (st : DbgState) (k : BPK) (es : List DbgAddr) :
    ((st.setBreakEntries k es).getBreak k).entries = es := by
  cases k <;> rfl

/-- Overwriting a collection twice keeps the last write. -/
theorem setBreakEntries_setBreakEntries (st : DbgState) (k : BPK)
    (es es' : List DbgAddr) :
    (st.setBreakEntries k es).setBreakEntries k es' = st.setBreakEntries k es' := by
  cases k <;> rfl

/-- Writing a collection's own entries back is the identity. -/
theorem setBreakEntries_self (st : DbgState) (k : BPK) :
    st.setBreakEntries k (st.getBreak k).entries = st := by
  cases k <;> rfl

/-- historyInit only touches the history and opcode-count fields. -/
theorem historyInit_fields (st : DbgState) :
    resolutionEnvEq (historyInit st) st ∧
    (historyInit st).aBreakExec = st.aBreakExec ∧
    (historyInit st).aBreakRead = st.aBreakRead ∧
    (historyInit st).aBreakWrite = st.aBreakWrite := by
  unfold historyInit
  split
  · exact ⟨⟨rfl, rfl, rfl, rfl, rfl⟩, rfl, rfl, rfl⟩
  · dsimp only
    split <;> split <;> exact ⟨⟨rfl, rfl, rfl, rfl, rfl⟩, rfl, rfl, rfl⟩

/-- Projection form of findBreakpoint. -/
theorem findBreakpoint_eq (st : DbgState) (k : BPK) (d : DbgAddr) (fRemove : Bool) :
    findBreakpoint st k d fRemove =
      ((findBPScan st (mapBreakpoint st (getAddr st d false none).1)
          (getAddr st d false none).2.sel (getAddr st d false none).2.off fRemove
          (st.getBreak k).entries).1,
       (getAddr st d false none).2,
       if (findBPScan st (mapBreakpoint st (getAddr st d false none).1)
            (getAddr st d false none).2.sel (getAddr st d false none).2.off fRemove
            (st.getBreak k).entries).2.1
       then historyInit (st.setBreakEntries k
         ((findBPScan st (mapBreakpoint st (getAddr st d false none).1)
            (getAddr st d false none).2.sel (getAddr st d false none).2.off fRemove
            (st.getBreak k).entries).2.2))
       else st.setBreakEntries k
         ((findBPScan st (mapBreakpoint st (getAddr st d false none).1)
            (getAddr st d false none).2.sel (getAddr st d false none).2.off fRemove
            (st.getBreak k).entries).2.2)) := rfl

/-- Projection form of addBreakpoint. -/
theorem addBreakpoint_eq (st : DbgState) (k : BPK) (d : DbgAddr) (fTemp : Bool) :
    addBreakpoint st k d fTemp =
      (let st' : DbgState := { st with nSuppressBreaks := st.nSuppressBreaks + 1 }
       let fb := findBreakpoint st' k d false
       let res :=
         if ¬fb.1 then
           let e1 := { fb.2.1 with fTempBreak := fTemp }
           let e2 := if k ≠ BPK.exec then (getAddr fb.2.2 e1 false none).2 else e1
           let e3 := if fTemp then
               (if jsTruthyOpt e2.addr then { e2 with sel := none } else e2)
             else e2
           let stp := fb.2.2.setBreakEntries k ((fb.2.2.getBreak k).entries ++ [e3])
           ((true : Bool), if ¬fTemp then historyInit stp else stp)
         else ((false : Bool), fb.2.2)
       (res.1, { res.2 with nSuppressBreaks := res.2.nSuppressBreaks - 1 })) := rfl

/-- Resolution-environment agreement is symmetric. -/
theorem resolutionEnvEq_symm {s t : DbgState} (h : resolutionEnvEq s t) :
    resolutionEnvEq t s := by
  obtain ⟨h1, h2, h3, h4, h5⟩ := h
  exact ⟨h1.symm, h2.symm, h3.symm, h4.symm, h5.symm⟩

/-- Resolution-environment agreement is transitive. -/
theorem resolutionEnvEq_trans {u v w : DbgState}
    (h : resolutionEnvEq u v) (h' : resolutionEnvEq v w) : resolutionEnvEq u w := by
  obtain ⟨h1, h2, h3, h4, h5⟩ := h
  obtain ⟨g1, g2, g3, g4, g5⟩ := h'
  exact ⟨h1.trans g1, h2.trans g2, h3.trans g3, h4.trans g4, h5.trans g5⟩

/-- Adjusting the re-entrancy counter does not move the collections. -/
theorem getBreak_suppress (st : DbgState) (n : Nat) (k : BPK) :
    DbgState.getBreak { st with nSuppressBreaks := n } k = st.getBreak k := by
  cases k <;> rfl

/-- historyInit does not move the collections. -/
theorem getBreak_historyInit (st : DbgState) (k : BPK) :
    (historyInit st).getBreak k = st.getBreak k := by
  obtain ⟨-, h1, h2, h3⟩ := historyInit_fields st
  cases k
  · exact h1
  · exact h2
  · exact h3

/-- getAddr on an address whose linear cache is filled. -/
theorem getAddr_cached (st : DbgState) (d : DbgAddr) (w : Bool) (nb : Option Nat)
    (av : Int) (h : d.addr = some av) : getAddr st d w nb = (av, d) := by
  unfold getAddr
  simp [h]

/-- getAddr on an uncached address for which no segment can be obtained. -/
theorem getAddr_noseg (st : DbgState) (d : DbgAddr) (w : Bool) (nb : Option Nat)
    (h1 : d.addr = none) (h2 : getSegment st d.sel (some d.fProt) = none) :
    getAddr st d w nb = (ADDR_INVALID, d) := by
  unfold getAddr
  simp [h1, h2]

/-- getAddr on an uncached address resolved through a segment, with the
source's defaulted byte count. -/
theorem getAddr_read_none (st : DbgState) (d : DbgAddr) (seg : Seg)
    (h1 : d.addr = none) (h2 : getSegment st d.sel (some d.fProt) = some seg) :
    getAddr st d false none =
      (seg.checkRead d.off 1, { d with addr := some (seg.checkRead d.off 1) }) := by
  unfold getAddr
  simp [h1, h2]

/-- addBreakpoint on an address whose scan (in the incremented state) finds
an existing entry and leaves the collection untouched returns false and
restores the state exactly. -/
theorem addBreakpoint_found (st1 : DbgState) (k : BPK) (d2 : DbgAddr)
    (h : findBPScan { st1 with nSuppressBreaks := st1.nSuppressBreaks + 1 }
        (mapBreakpoint { st1 with nSuppressBreaks := st1.nSuppressBreaks + 1 }
          (getAddr { st1 with nSuppressBreaks := st1.nSuppressBreaks + 1 } d2 false none).1)
        (getAddr { st1 with nSuppressBreaks := st1.nSuppressBreaks + 1 } d2 false none).2.sel
        (getAddr { st1 with nSuppressBreaks := st1.nSuppressBreaks + 1 } d2 false none).2.off
        false (st1.getBreak k).entries
      = (true, false, (st1.getBreak k).entries)) :
    addBreakpoint st1 k d2 false = (false, st1) := by
  rw [addBreakpoint_eq]
  dsimp only
  rw [findBreakpoint_eq]
  rw [getBreak_suppress]
  rw [h]
  dsimp only
  rw [if_neg Bool.false_ne_true]
  rw [if_neg (by decide : ¬¬(true = true))]
  dsimp only
  rw [← getBreak_suppress st1 (st1.nSuppressBreaks + 1) k]
  rw [setBreakEntries_self]
  rfl

/-- Claim C8: breakpoint collections never contain duplicates — after a
breakpoint with a given (selector, offset) key has been added, adding a
second, never-resolved address with the same selector, offset and
protection mode to the same collection returns false and leaves the whole
state (in particular the collection's contents and length) unchanged. -/
theorem claim_C8_dedup (st : DbgState) (k : BPK) (d1 d2 : DbgAddr) (s : Int)
    (h1s : d1.sel = some s) (h2s : d2.sel = some s)
    (hoff : d2.off = d1.off) (hprot : d2.fProt = d1.fProt)
    (h1a : d1.addr = none) (h2a : d2.addr = none) :
    addBreakpoint (addBreakpoint st k d1 false).2 k d2 false =
      (false, (addBreakpoint st k d1 false).2) := by
  set st' : DbgState := { st with nSuppressBreaks := st.nSuppressBreaks + 1 } with hst'
  set a : Int := (getAddr st' d1 false none).1 with ha
  set d1' : DbgAddr := (getAddr st' d1 false none).2 with hd1'
  have hps : d1'.sel = d1.sel := (getAddr_preserves st' d1 false none).2.1
  have hpo : d1'.off = d1.off := (getAddr_preserves st' d1 false none).1
  set A : Int := mapBreakpoint st' a with hA
  set L : List DbgAddr := (st'.getBreak k).entries with hL
  set scan : Bool × Bool × List DbgAddr := findBPScan st' A d1'.sel d1'.off false L with hscan
  have hnr : scan.2.1 = false := by
    rw [hscan]
    exact findBPScan_no_remove st' A d1'.sel d1'.off L
  set stA : DbgState := st'.setBreakEntries k scan.2.2 with hstA
  have hfb1 : findBreakpoint st' k d1 false = (scan.1, d1', stA) := by
    rw [findBreakpoint_eq, ← ha, ← hd1', ← hA, ← hL, ← hscan, hnr]
    rw [if_neg Bool.false_ne_true]
  have henvA : resolutionEnvEq stA st' := by
    rw [hstA]
    exact setBreakEntries_env st' k scan.2.2
  have hd2sel : d2.sel = d1.sel := h2s.trans h1s.symm
  have hscanK : findBPScan st' A (some s) d1.off false L = (scan.1, false, scan.2.2) := by
    rw [← h1s, ← hps, ← hpo]
    calc findBPScan st' A d1'.sel d1'.off false L = scan := hscan.symm
      _ = (scan.1, scan.2.1, scan.2.2) := rfl
      _ = (scan.1, false, scan.2.2) := by rw [hnr]
  by_cases hf : scan.1 = true
  · -- the first add already found the entry; its state is handed back unchanged
    set st1 : DbgState := { stA with nSuppressBreaks := stA.nSuppressBreaks - 1 } with hst1
    set st1' : DbgState := { st1 with nSuppressBreaks := st1.nSuppressBreaks + 1 } with hst1'
    have hadd1 : addBreakpoint st k d1 false = (false, st1) := by
      rw [addBreakpoint_eq]
      dsimp only
      rw [← hst', hfb1]
      dsimp only
      rw [hf]
      rw [if_neg (by decide : ¬¬(true = true))]
    have henv1 : resolutionEnvEq st1' st' := by
      obtain ⟨e1, e2, e3, e4, e5⟩ := henvA
      refine ⟨e1, e2, e3, ?_, e5⟩
      show stA.nSuppressBreaks - 1 + 1 = st'.nSuppressBreaks
      rw [e4]
      show st.nSuppressBreaks + 1 - 1 + 1 = st.nSuppressBreaks + 1
      omega
    have h2fst : (getAddr st1' d2 false none).1 = a := by
      rw [getAddr_fst_key henv1 d1 d2 h1a h2a hd2sel hoff hprot none]
    have h2map : mapBreakpoint st1' a = A := by
      rw [mapBreakpoint_congr henv1 a]
    have h2sel : (getAddr st1' d2 false none).2.sel = some s := by
      rw [(getAddr_preserves st1' d2 false none).2.1]
      exact h2s
    have h2off : (getAddr st1' d2 false none).2.off = d1.off := by
      rw [(getAddr_preserves st1' d2 false none).1]
      exact hoff
    have hgb1 : (st1.getBreak k).entries = scan.2.2 := by
      rw [hst1, getBreak_suppress, hstA, getBreak_setBreakEntries]
    have hscanT := hscanK
    rw [hf] at hscanT
    have hscan2 : findBPScan st1' A (some s) d1.off false scan.2.2 =
        (true, false, scan.2.2) :=
      findBPScan_rescan (resolutionEnvEq_symm henv1) A (some s) d1.off L true scan.2.2 hscanT
    rw [hadd1]
    dsimp only
    apply addBreakpoint_found st1 k d2
    rw [← hst1', h2fst, h2map, h2sel, h2off, hgb1]
    exact hscan2
  · -- the first add pushed a fresh entry; the second add finds it
    have hf' : scan.1 = false := by
      rcases hb : scan.1 with _ | _
      · rfl
      · exact absurd hb hf
    set p : DbgAddr := { d1' with fTempBreak := false } with hp2
    set stp : DbgState := st'.setBreakEntries k (scan.2.2 ++ [p]) with hstp
    set stH : DbgState := historyInit stp with hstH
    set st1 : DbgState := { stH with nSuppressBreaks := stH.nSuppressBreaks - 1 } with hst1
    set st1' : DbgState := { st1 with nSuppressBreaks := st1.nSuppressBreaks + 1 } with hst1'
    have hpsel : p.sel = d1.sel := hps
    have hpoff : p.off = d1.off := hpo
    have hpprot : p.fProt = d1.fProt := (getAddr_preserves st' d1 false none).2.2.1
    have hres : (a = ADDR_INVALID ∧ d1' = d1 ∧
        getSegment st' d1.sel (some d1.fProt) = none) ∨ d1'.addr = some a := by
      rcases hseg : getSegment st' d1.sel (some d1.fProt) with _ | seg
      · left
        refine ⟨?_, ?_, rfl⟩
        · rw [ha, getAddr_noseg st' d1 false none h1a hseg]
        · rw [hd1', getAddr_noseg st' d1 false none h1a hseg]
      · right
        rw [hd1', ha, getAddr_read_none st' d1 seg h1a hseg]
    have hpget : ∀ (u : DbgState), resolutionEnvEq u st' →
        getAddr u p false none = (a, p) := by
      intro u hu
      rcases hres with ⟨haI, hdd, hsegn⟩ | hcache
      · have hpaddr : p.addr = none := by
          show d1'.addr = none
          rw [hdd]
          exact h1a
        have hseg2 : getSegment u p.sel (some p.fProt) = none := by
          rw [hpsel, hpprot, getSegment_congr hu]
          exact hsegn
        rw [getAddr_noseg u p false none hpaddr hseg2, haI]
      · have hpaddr : p.addr = some a := hcache
        exact getAddr_cached u p false none a hpaddr
    have henvA2 : resolutionEnvEq stA st' := henvA
    have hadd1 : addBreakpoint st k d1 false = (true, st1) := by
      rw [addBreakpoint_eq]
      dsimp only
      rw [← hst', hfb1]
      dsimp only
      rw [hf']
      rw [if_pos (by decide : ¬(false = true))]
      rw [← hp2]
      rw [hpget stA henvA2]
      dsimp only
      rw [ite_self]
      rw [if_neg Bool.false_ne_true]
      have hgbA : (stA.getBreak k).entries = scan.2.2 := by
        rw [hstA, getBreak_setBreakEntries]
      rw [hgbA]
      have hsbA : stA.setBreakEntries k (scan.2.2 ++ [p]) =
          st'.setBreakEntries k (scan.2.2 ++ [p]) := by
        rw [hstA, setBreakEntries_setBreakEntries]
      rw [hsbA, ← hstp]
      rw [if_pos (by decide : ¬(false = true))]
    have henvH : resolutionEnvEq stH st' := by
      rw [hstH, hstp]
      exact resolutionEnvEq_trans (historyInit_fields (st'.setBreakEntries k (scan.2.2 ++ [p]))).1
        (setBreakEntries_env st' k (scan.2.2 ++ [p]))
    have henv1 : resolutionEnvEq st1' st' := by
      obtain ⟨e1, e2, e3, e4, e5⟩ := henvH
      refine ⟨e1, e2, e3, ?_, e5⟩
      show stH.nSuppressBreaks - 1 + 1 = st'.nSuppressBreaks
      rw [e4]
      show st.nSuppressBreaks + 1 - 1 + 1 = st.nSuppressBreaks + 1
      omega
    have h2fst : (getAddr st1' d2 false none).1 = a := by
      rw [getAddr_fst_key henv1 d1 d2 h1a h2a hd2sel hoff hprot none]
    have h2map : mapBreakpoint st1' a = A := by
      rw [mapBreakpoint_congr henv1 a]
    have h2sel : (getAddr st1' d2 false none).2.sel = some s := by
      rw [(getAddr_preserves st1' d2 false none).2.1]
      exact h2s
    have h2off : (getAddr st1' d2 false none).2.off = d1.off := by
      rw [(getAddr_preserves st1' d2 false none).1]
      exact hoff
    have hgb1 : (st1.getBreak k).entries = scan.2.2 ++ [p] := by
      rw [hst1, getBreak_suppress, hstH, getBreak_historyInit, hstp, getBreak_setBreakEntries]
    have hscanF := hscanK
    rw [hf'] at hscanF
    have hpre2 : findBPScan st1' A (some s) d1.off false scan.2.2 =
        (false, false, scan.2.2) :=
      findBPScan_rescan (resolutionEnvEq_symm henv1) A (some s) d1.off L false scan.2.2 hscanF
    have hsingle : findBPScan st1' A (some s) d1.off false [p] = (true, false, [p]) :=
      findBPScan_single_match st1' A (some s) d1.off p a (hpget st1' henv1) h2map
        (by rw [hpsel]; exact h1s.symm) (by rw [hpoff])
    have hscan2 : findBPScan st1' A (some s) d1.off false (scan.2.2 ++ [p]) =
        (true, false, scan.2.2 ++ [p]) := by
      rw [findBPScan_append st1' A (some s) d1.off scan.2.2 [p] hpre2]
      rw [hsingle]
    rw [hadd1]
    dsimp only
    apply addBreakpoint_found st1 k d2
    rw [← hst1', h2fst, h2map, h2sel, h2off, hgb1]
    exact hscan2

/-- Claim C8 witness: adding the breakpoint 0040:0200 to the exec
collection twice — the second add fails and changes nothing. -/
theorem claim_C8_dedup_witness :
    addBreakpoint (addBreakpoint baseState BPK.exec dKey1 false).2 BPK.exec dKey2 false =
      (false, (addBreakpoint baseState BPK.exec dKey1 false).2) :=
  claim_C8_dedup baseState BPK.exec dKey1 dKey2 0x40 rfl rfl rfl rfl rfl rfl

end PCjs
